import Mathlib

/-!
Trabalho12.c : data-acquisition controller (MPU6050 logger on an SD card).

Shallow embedding of `src/Trabalho12.c`.

* The C globals, the two function-local statics (`file_counter` of
  `generate_filename`, `last_interrupt_time` of `gpio_irq_handler`) and the
  local `last_sample_time` of `main` are the fields of `Sys`.
* Machine integers are natural numbers; every C operation that can wrap is
  written with an explicit modulus (`uint32_t`: 4294967296, `uint16_t`: 65536).
* The collaborators that are not part of this translation unit (FatFs, the
  sensor bus, the clock, the display, LED and buzzer drivers) are modelled as
  follows: what they return is an explicit argument (`Inputs`), what the
  program asks of them is appended to `Sys.trace`, and the content of the
  files on the medium is kept in `Sys.files`.
-/

namespace Trabalho12

/-! ## Constants and types -/

def BOTAO_A : Nat := 5
def BOTAO_B : Nat := 6

/-- The C expression `a - b` on two `uint32_t` values. -/
def sub32 (a b : Nat) : Nat := (a % 4294967296 + (4294967296 - b % 4294967296)) % 4294967296

/-- The C expression `a + 1` on a `uint32_t` value. -/
def inc32 (a : Nat) : Nat := (a + 1) % 4294967296

inductive system_state_t
  | STATE_INITIALIZING
  | STATE_READY
  | STATE_CAPTURING
  | STATE_SD_ACCESS
  | STATE_ERROR
  deriving DecidableEq, Repr

open system_state_t

/-- Result code of a FatFs call (`ff.h`); the program only ever compares it with `FR_OK`. -/
inductive FRESULT
  | FR_OK
  | FR_ERR (code : Nat)
  deriving DecidableEq, Repr

open FRESULT

/-- Three raw `int16_t` axis values. -/
structure Vec3 where
  x : Int
  y : Int
  z : Int
  deriving DecidableEq, Repr

/-- One unit written to a file with a single `f_write`.
`row` stands for the CSV line printed by `write_sensor_data`; the six derived
floating point fields are a function of the raw values and are not represented. -/
inductive Line
  | header
  | metadata
  | row (sample_num : Nat) (accel gyro : Vec3) (timestamp : Nat)
  deriving DecidableEq, Repr

/-- The header text written by `create_csv_file`; `Line.header` stands for it in a file. -/
def csv_header : String :=
  "Amostra,Accel_X_LSB,Accel_Y_LSB,Accel_Z_LSB,Gyro_X_LSB,Gyro_Y_LSB,Gyro_Z_LSB,Accel_X_g,Accel_Y_g,Accel_Z_g,Gyro_X_dps,Gyro_Y_dps,Gyro_Z_dps,Timestamp_ms\r\n"

/-- Requests the program issues to its collaborators, in program order.
`f_mount` and `f_unmount` also record the value `capture_active` had when the
call was issued (a ghost field). -/
inductive Effect
  | led (red green blue : Bool)
  | beep (frequency duration_ms : Nat)
  | sleep (ms : Nat)
  | display (status info : String) (sd_ok : Bool) (count : Option Nat)
  | progress (count : Nat) (file : String)
  | sensor_read
  | f_open_create (name : String) (res : FRESULT)
  | f_open_append (name : String) (res : FRESULT)
  | f_write (name : String) (res : FRESULT)
  | f_close (name : String)
  | f_mount (capturing : Bool) (res : FRESULT)
  | f_unmount (capturing : Bool) (res : FRESULT)
  deriving DecidableEq, Repr

/-- Content of the files of the medium, by name. -/
abbrev Files := String → Option (List Line)

/-- Program state. -/
structure Sys where
  current_state : system_state_t
  capture_active : Bool
  sd_mounted : Bool
  button_a_pressed : Bool
  button_b_pressed : Bool
  sample_count : Nat
  csv_filename : String
  file_counter : Nat
  last_interrupt_time : Nat
  last_sample_time : Nat
  files : Files
  trace : List Effect

/-- What the collaborators return during one iteration of the main loop. -/
structure Inputs where
  current_time : Nat
  accel : Vec3
  gyro : Vec3
  timestamp : Nat
  sample_open : FRESULT
  sample_write : FRESULT
  csv_open : FRESULT
  csv_write : FRESULT
  meta_open : FRESULT
  meta_write : FRESULT
  fs_found : Bool
  mount_res : FRESULT
  unmount_res : FRESULT

/-! ## File store (FatFs collaborator) -/

/-- Successful `f_open` with `FA_WRITE | FA_CREATE_ALWAYS`: the file exists and is empty. -/
def fs_create (name : String) (fs : Files) : Files :=
  fun n => if n = name then some [] else fs n

/-- Successful `f_open` with `FA_WRITE | FA_OPEN_APPEND`: the file is created when missing. -/
def fs_open_append (name : String) (fs : Files) : Files :=
  fun n => if n = name then some ((fs name).getD []) else fs n

/-- Successful `f_write` at the end of an open file. -/
def fs_append (name : String) (l : Line) (fs : Files) : Files :=
  fun n => if n = name then some ((fs name).getD [] ++ [l]) else fs n

/-! ## Feedback helpers -/

def emit (es : List Effect) (s : Sys) : Sys :=
  { s with trace := s.trace ++ es }

def sleep_ms (ms : Nat) (s : Sys) : Sys := emit [Effect.sleep ms] s

def set_rgb_color (red green blue : Bool) (s : Sys) : Sys :=
  emit [Effect.led red green blue] s

def led_yellow (s : Sys) : Sys := set_rgb_color true true false s
def led_green (s : Sys) : Sys := set_rgb_color false true false s
def led_red (s : Sys) : Sys := set_rgb_color true false false s
def led_blue (s : Sys) : Sys := set_rgb_color false false true s
def led_purple (s : Sys) : Sys := set_rgb_color true false true s
def led_off (s : Sys) : Sys := set_rgb_color false false false s

/-- The PWM set-up followed by the blocking `sleep_ms(duration_ms)` is one effect. -/
def buzzer_beep (frequency duration_ms : Nat) (s : Sys) : Sys :=
  emit [Effect.beep frequency duration_ms] s

def buzzer_single_beep (s : Sys) : Sys := buzzer_beep 1000 300 s

def buzzer_double_beep (s : Sys) : Sys :=
  buzzer_beep 1000 200 (sleep_ms 100 (buzzer_beep 1000 200 s))

/-- The rendered screen depends on `sd_mounted`, and on `sample_count` while `capture_active`. -/
def update_display (status info : String) (s : Sys) : Sys :=
  emit [Effect.display status info s.sd_mounted
    (if s.capture_active then some s.sample_count else none)] s

/-! ## File naming -/

/-- The conversion `%03d` of `snprintf`: decimal digits, zero padded to width 3. -/
def fmt_03d (n : Nat) : String :=
  String.mk (List.replicate (3 - (Nat.toDigits 10 n).length) '0' ++ Nat.toDigits 10 n)

/-- The text has at most 14 characters, so the 32 byte buffer never truncates it. -/
def generate_filename (s : Sys) : Sys :=
  { s with
    csv_filename := "data_" ++ fmt_03d s.file_counter ++ ".csv"
    file_counter := (s.file_counter + 1) % 65536 }

/-! ## Storage medium -/

def mount_sd_card (fs_found : Bool) (mount_res : FRESULT) (s : Sys) : Bool × Sys :=
  let s := { s with current_state := STATE_SD_ACCESS }
  let s := led_blue s
  let s := update_display "Montando SD" "Aguarde..." s
  if !fs_found then (false, s)
  else
    let s := emit [Effect.f_mount s.capture_active mount_res] s
    if mount_res ≠ FR_OK then
      let s := { s with current_state := STATE_ERROR }
      let s := led_purple s
      let s := update_display "ERRO SD" "Falha ao montar" s
      (false, s)
    else
      (true, { s with sd_mounted := true })

def unmount_sd_card (unmount_res : FRESULT) (s : Sys) : Bool × Sys :=
  let s := { s with current_state := STATE_SD_ACCESS }
  let s := led_blue s
  let s := update_display "Desmontando" "Aguarde..." s
  let s := emit [Effect.f_unmount s.capture_active unmount_res] s
  if unmount_res ≠ FR_OK then (false, s)
  else (true, { s with sd_mounted := false })

/-! ## Capture session files -/

/-- The name built with `strcpy` and `strcat`. -/
def metadata_filename (s : Sys) : String := "metadata_" ++ s.csv_filename

def create_metadata_file (meta_open meta_write : FRESULT) (s : Sys) : Bool × Sys :=
  let name := metadata_filename s
  let s := emit [Effect.f_open_create name meta_open] s
  if meta_open ≠ FR_OK then (false, s)
  else
    let s := { s with files := fs_create name s.files }
    let s := emit [Effect.f_write name meta_write] s
    let s := if meta_write = FR_OK then { s with files := fs_append name Line.metadata s.files } else s
    let s := emit [Effect.f_close name] s
    (decide (meta_write = FR_OK), s)

def create_csv_file (inp : Inputs) (s : Sys) : Bool × Sys :=
  let s := emit [Effect.f_open_create s.csv_filename inp.csv_open] s
  if inp.csv_open ≠ FR_OK then (false, s)
  else
    let s := { s with files := fs_create s.csv_filename s.files }
    let s := emit [Effect.f_write s.csv_filename inp.csv_write] s
    let s := if inp.csv_write = FR_OK then
      { s with files := fs_append s.csv_filename Line.header s.files } else s
    let s := emit [Effect.f_close s.csv_filename] s
    let s := (create_metadata_file inp.meta_open inp.meta_write s).2
    (decide (inp.csv_write = FR_OK), s)

def write_sensor_data (open_res write_res : FRESULT) (timestamp : Nat)
    (sample_num : Nat) (accel gyro : Vec3) (s : Sys) : Bool × Sys :=
  let s := if sample_num % 50 = 0 then led_red (sleep_ms 10 (led_blue s)) else s
  let s := emit [Effect.f_open_append s.csv_filename open_res] s
  if open_res ≠ FR_OK then (false, s)
  else
    let s := { s with files := fs_open_append s.csv_filename s.files }
    let s := emit [Effect.f_write s.csv_filename write_res] s
    let s := if write_res = FR_OK then
      { s with files := fs_append s.csv_filename (Line.row sample_num accel gyro timestamp) s.files }
      else s
    let s := emit [Effect.f_close s.csv_filename] s
    (decide (write_res = FR_OK), s)

/-! ## Button interrupt -/

def gpio_irq_handler (gpio : Nat) (_events : Nat) (current_time : Nat) (s : Sys) : Sys :=
  if sub32 current_time s.last_interrupt_time < 200 then s
  else
    let s := { s with last_interrupt_time := current_time }
    if gpio = BOTAO_A then { s with button_a_pressed := true }
    else if gpio = BOTAO_B then { s with button_b_pressed := true }
    else s

/-! ## Sampling -/

def mpu6050_read_raw (s : Sys) : Sys := emit [Effect.sensor_read] s

def process_single_sample (inp : Inputs) (s : Sys) : Sys :=
  let s := mpu6050_read_raw s
  let r := write_sensor_data inp.sample_open inp.sample_write inp.timestamp
    (inc32 s.sample_count) inp.accel inp.gyro s
  if r.1 then
    let s : Sys := { r.2 with sample_count := inc32 r.2.sample_count }
    if s.sample_count % 10 = 0 then emit [Effect.progress s.sample_count s.csv_filename] s
    else s
  else
    let s : Sys := { r.2 with current_state := STATE_ERROR }
    let s := led_purple s
    let s := update_display "ERRO" "Falha escrita SD" s
    { s with capture_active := false }

/-! ## Initialisation -/

def mpu6050_reset (s : Sys) : Sys := sleep_ms 10 (sleep_ms 100 s)

/-- The body of `system_init`; the GPIO, I2C and display set-up calls have no
effect on the modelled state. -/
def system_init (s : Sys) : Sys :=
  let s := sleep_ms 2000 s
  let s := generate_filename s
  let s := { s with current_state := STATE_INITIALIZING }
  let s := led_yellow s
  let s := update_display "Inicializando" "Configurando..." s
  let s := mpu6050_reset s
  let s := update_display "Inicializando" "MPU6050 OK" s
  let s := sleep_ms 1000 s
  let s := { s with current_state := STATE_READY }
  let s := led_green s
  update_display "PRONTO" "A:Iniciar B:SD" s

/-- The static initialisers of the translation unit, on a medium holding `files`. -/
def init_globals (files : Files) : Sys :=
  { current_state := STATE_INITIALIZING
    capture_active := false
    sd_mounted := false
    button_a_pressed := false
    button_b_pressed := false
    sample_count := 0
    csv_filename := ""
    file_counter := 1
    last_interrupt_time := 0
    last_sample_time := 0
    files := files
    trace := [] }

/-- State of `main` when it reaches `while (true)` for the first time. -/
def boot (files : Files) : Sys :=
  { system_init (init_globals files) with last_sample_time := 0 }

/-! ## Main loop -/

def sample_interval : Nat := 50

/-- Lines 501 to 504: the scheduler-driven sample. -/
def sampling_block (inp : Inputs) (s : Sys) : Sys :=
  if s.capture_active && decide (sample_interval ≤ sub32 inp.current_time s.last_sample_time) then
    let s := process_single_sample inp s
    { s with last_sample_time := inp.current_time }
  else s

/-- Lines 523 to 541: Start with the medium mounted. -/
def start_capture (inp : Inputs) (s : Sys) : Sys :=
  let s := { s with sample_count := 0 }
  let r := create_csv_file inp s
  if r.1 then
    let s : Sys := { r.2 with capture_active := true }
    let s := { s with current_state := STATE_CAPTURING }
    let s := led_red s
    let s := buzzer_single_beep s
    let s := update_display "INICIANDO" "Preparando..." s
    let s := { s with last_sample_time := inp.current_time }
    let s := sleep_ms 500 s
    update_display "GRAVANDO" "A:Parar" s
  else
    let s : Sys := { r.2 with current_state := STATE_ERROR }
    let s := led_purple s
    let s := update_display "ERRO" "Falha criar arquivo" s
    let s := buzzer_beep 500 500 s
    let s := sleep_ms 2000 s
    let s := { s with current_state := STATE_READY }
    let s := led_green s
    update_display "PRONTO" "A:Iniciar B:SD" s

/-- Lines 507 to 555: button A (start or stop the capture). -/
def button_a_block (inp : Inputs) (s : Sys) : Sys :=
  if s.button_a_pressed then
    let s := { s with button_a_pressed := false }
    if !s.capture_active then
      if !s.sd_mounted then
        let s := { s with current_state := STATE_ERROR }
        let s := led_purple s
        let s := update_display "ERRO" "SD nao montado" s
        let s := buzzer_beep 500 500 s
        let s := sleep_ms 2000 s
        let s := { s with current_state := STATE_READY }
        let s := led_green s
        update_display "PRONTO" "A:Iniciar B:SD" s
      else
        start_capture inp s
    else
      let s := { s with capture_active := false }
      let s := { s with current_state := STATE_READY }
      let s := led_green s
      let s := buzzer_double_beep s
      let s := update_display "FINALIZADO" ("Salvos: " ++ toString s.sample_count) s
      let s := sleep_ms 3000 s
      update_display "PRONTO" "A:Iniciar B:SD" s
  else s

/-- Lines 572 to 588: mount request and its feedback. -/
def mount_request (inp : Inputs) (s : Sys) : Sys :=
  let r := mount_sd_card inp.fs_found inp.mount_res s
  if r.1 then
    let s : Sys := { r.2 with current_state := STATE_READY }
    let s := led_green s
    let s := buzzer_single_beep s
    let s := update_display "SD MONTADO" "Pronto!" s
    let s := sleep_ms 2000 s
    update_display "PRONTO" "A:Iniciar B:SD" s
  else
    let s : Sys := { r.2 with current_state := STATE_ERROR }
    let s := led_purple s
    let s := buzzer_beep 500 500 s
    let s := update_display "ERRO SD" "Falha montagem" s
    let s := sleep_ms 2000 s
    let s := { s with current_state := STATE_READY }
    let s := led_green s
    update_display "PRONTO" "A:Iniciar B:SD" s

/-- Lines 591 to 607: unmount request and its feedback. -/
def unmount_request (inp : Inputs) (s : Sys) : Sys :=
  let r := unmount_sd_card inp.unmount_res s
  if r.1 then
    let s : Sys := { r.2 with current_state := STATE_READY }
    let s := led_green s
    let s := buzzer_double_beep s
    let s := update_display "SD DESMONTADO" "Seguro remover" s
    let s := sleep_ms 2000 s
    update_display "PRONTO" "A:Iniciar B:SD" s
  else
    let s : Sys := { r.2 with current_state := STATE_ERROR }
    let s := led_purple s
    let s := buzzer_beep 500 500 s
    let s := update_display "ERRO" "Falha desmontar" s
    let s := sleep_ms 2000 s
    let s := { s with current_state := STATE_READY }
    let s := led_green s
    update_display "PRONTO" "A:Iniciar B:SD" s

/-- Lines 558 to 609: button B (mount or unmount the medium).
The second component tells whether the `continue` of line 567 was taken. -/
def button_b_block (inp : Inputs) (s : Sys) : Sys × Bool :=
  if s.button_b_pressed then
    let s := { s with button_b_pressed := false }
    if s.capture_active then
      let s := buzzer_beep 500 500 s
      let s := update_display "ERRO" "Pare captura antes" s
      let s := sleep_ms 2000 s
      let s := update_display "GRAVANDO" "A:Parar" s
      (s, true)
    else if !s.sd_mounted then (mount_request inp s, false)
    else (unmount_request inp s, false)
  else (s, false)

/-- One pass through the body of `while (true)` in `main`. -/
def main_loop_iteration (inp : Inputs) (s : Sys) : Sys :=
  let s := sampling_block inp s
  let s := button_a_block inp s
  let r := button_b_block inp s
  if r.2 then r.1 else sleep_ms 10 r.1

/-- States the program can be in at the top of the main loop: the state after
`system_init`, closed under button interrupts and loop iterations with
arbitrary collaborator results. The interrupt handler writes only the two
pending flags and its own time stamp. -/
inductive Reachable (files : Files) : Sys → Prop
  | boot : Reachable files (boot files)
  | irq (s : Sys) (gpio events current_time : Nat) :
      Reachable files s → Reachable files (gpio_irq_handler gpio events current_time s)
  | loop (s : Sys) (inp : Inputs) :
      Reachable files s → Reachable files (main_loop_iteration inp s)

/-! ## Button edges -/

/-- One raw edge delivered to `gpio_irq_handler`; `time` is the value
`to_ms_since_boot` returns during the call. -/
structure Edge where
  gpio : Nat
  events : Nat
  time : Nat
  deriving DecidableEq, Repr

/-- One handler call got past the debounce guard: it stored a new time stamp. -/
def edge_accepted (e : Edge) (s : Sys) : Bool :=
  decide ((gpio_irq_handler e.gpio e.events e.time s).last_interrupt_time ≠ s.last_interrupt_time)

/-- The handler run on a sequence of edges. -/
def irq_run : List Edge → Sys → Sys
  | [], s => s
  | e :: es, s => irq_run es (gpio_irq_handler e.gpio e.events e.time s)

/-- The edges of a sequence that the handler accepts, in order. -/
def irq_events : List Edge → Sys → List Edge
  | [], _ => []
  | e :: es, s =>
      if edge_accepted e s then e :: irq_events es (gpio_irq_handler e.gpio e.events e.time s)
      else irq_events es (gpio_irq_handler e.gpio e.events e.time s)

/-- The debounce rule in the words of the specification: an edge becomes a
button event iff its time minus the time `last` of the last accepted edge, of
either source, is at least 200 ms; an accepted edge becomes the new `last`. -/
def spec_button_events (last : Int) : List Edge → List Edge
  | [] => []
  | e :: es =>
      if 200 ≤ (e.time : Int) - last then e :: spec_button_events (e.time : Int) es
      else spec_button_events last es

/-! ## Concrete inputs and states used in the instances -/

/-- Collaborator results of an iteration at clock value `t` in which every call succeeds. -/
def inputs_ok (t : Nat) : Inputs :=
  { current_time := t
    accel := ⟨0, 0, 16384⟩
    gyro := ⟨0, 0, 0⟩
    timestamp := t
    sample_open := FR_OK
    sample_write := FR_OK
    csv_open := FR_OK
    csv_write := FR_OK
    meta_open := FR_OK
    meta_write := FR_OK
    fs_found := true
    mount_res := FR_OK
    unmount_res := FR_OK }

/-- The state after `system_init` on an empty medium. -/
def sys_boot : Sys := boot (fun _ => none)

/-- Ready with the medium mounted: B was pressed at 3000 ms and the mount succeeded. -/
def sys_mounted : Sys :=
  main_loop_iteration (inputs_ok 3010) (gpio_irq_handler BOTAO_B 0 3000 sys_boot)

/-- Capturing: A was pressed at 4000 ms and the session files were created. -/
def sys_capturing : Sys :=
  main_loop_iteration (inputs_ok 4010) (gpio_irq_handler BOTAO_A 0 4000 sys_mounted)

/-- A capturing state whose sample counter holds the largest `uint32_t` value. -/
def sys_counter_max : Sys := { sys_capturing with sample_count := 4294967295 }

/-! ## Observations on the trace -/

/-- The effect is a FatFs file call. -/
def is_file_op : Effect → Bool
  | Effect.f_open_create _ _ => true
  | Effect.f_open_append _ _ => true
  | Effect.f_write _ _ => true
  | Effect.f_close _ => true
  | _ => false

/-- The effect is a mount or unmount call. -/
def is_mount_op : Effect → Bool
  | Effect.f_mount _ _ => true
  | Effect.f_unmount _ _ => true
  | _ => false

/-- The effect is a mount or unmount call issued while `capture_active` was true. -/
def mount_while_capturing : Effect → Bool
  | Effect.f_mount c _ => c
  | Effect.f_unmount c _ => c
  | _ => false

/-- No mount or unmount call of the trace was issued while a capture was active. -/
def clean (s : Sys) : Bool := s.trace.all (fun e => !mount_while_capturing e)

/-- The safety invariant of the storage gateway: a capture is active only on a
mounted medium, and no mount or unmount call was issued during a capture. -/
def Inv (s : Sys) : Prop :=
  (s.capture_active = true → s.sd_mounted = true) ∧ clean s = true

/-- Consecutive iterations of the main loop, with no interrupt in between. -/
def run_loop : List Inputs → Sys → Sys
  | [], s => s
  | i :: is, s => run_loop is (main_loop_iteration i s)

/-- The names passed to a successful `f_open` with `FA_CREATE_ALWAYS`, in order. -/
def created_files : List Effect → List String
  | [] => []
  | Effect.f_open_create n FR_OK :: es => n :: created_files es
  | _ :: es => created_files es

/-- The first session stopped: A was pressed again at 9000 ms. -/
def sys_stopped : Sys :=
  main_loop_iteration (inputs_ok 9010) (gpio_irq_handler BOTAO_A 0 9000 sys_capturing)

/-- A second session in the same run: A was pressed at 13000 ms. -/
def sys_capturing_again : Sys :=
  main_loop_iteration (inputs_ok 13010) (gpio_irq_handler BOTAO_A 0 13000 sys_stopped)

/-- The rows a session of `n` ticks writes when the sample index does not wrap:
row `k` carries the index `k + 1` and the readings of tick `k`. -/
def session_rows (tick : Nat → Inputs) (n : Nat) : List Line :=
  (List.range n).map
    (fun k => Line.row (k + 1) (tick k).accel (tick k).gyro (tick k).timestamp)

/-- The rows a session of `n` ticks writes, with the `uint32_t` sample index. -/
def session_rows32 (tick : Nat → Inputs) (n : Nat) : List Line :=
  (List.range n).map
    (fun k => Line.row ((k + 1) % 4294967296) (tick k).accel (tick k).gyro (tick k).timestamp)

/-- Ready, medium mounted, A pressed at 4000 ms and still pending. -/
def sys_start_pending : Sys := gpio_irq_handler BOTAO_A 0 4000 sys_mounted

/-- Tick `k` of a session started at clock value 4010: 50 ms after the previous
one, every storage call succeeds. -/
def tick_ok (k : Nat) : Inputs := inputs_ok ((4010 + 50 * (k + 1)) % 4294967296)

/-! ## Work done by one iteration -/

/-- The effect is a read of the sensor (`mpu6050_read_raw`). -/
def is_sensor_read : Effect → Bool
  | Effect.sensor_read => true
  | _ => false

/-- The effect opens the record file for appending: the start of the
open, write, close cycle of `write_sensor_data`, the only function that does so. -/
def is_record_write : Effect → Bool
  | Effect.f_open_append _ _ => true
  | _ => false

/-- Number of sensor reads in the trace. -/
def sensor_reads (s : Sys) : Nat := s.trace.countP is_sensor_read

/-- Number of record writes started in the trace. -/
def record_writes (s : Sys) : Nat := s.trace.countP is_record_write

/-- Number of mount and unmount calls in the trace. -/
def mount_calls (s : Sys) : Nat := s.trace.countP is_mount_op

/-- The effect is a feedback pause of a button branch: a `sleep_ms` of at least
500 ms. Every path through the branch of button A and through the branch of
button B holds its final cue with exactly one such pause (`sleep_ms(500)`,
`sleep_ms(2000)` or `sleep_ms(3000)`); the other pauses of the loop are
`sleep_ms(10)` and the `sleep_ms(100)` inside `buzzer_double_beep`. -/
def is_button_pause : Effect → Bool
  | Effect.sleep ms => decide (500 ≤ ms)
  | _ => false

/-- Number of feedback pauses of button branches in the trace. -/
def button_pauses (s : Sys) : Nat := s.trace.countP is_button_pause

/-- During the capture, B was pressed at 9000 ms and refused by the iteration
that started at 9010 ms. -/
def sys_refused : Sys :=
  main_loop_iteration (inputs_ok 9010) (gpio_irq_handler BOTAO_B 0 9000 sys_capturing)

/-- While that iteration showed its error cue, A was pressed at 9500 ms and B at
9800 ms: both flags are pending at the top of the next iteration. -/
def sys_both_pending : Sys :=
  gpio_irq_handler BOTAO_B 0 9800 (gpio_irq_handler BOTAO_A 0 9500 sys_refused)

end Trabalho12

/-! # Theorems -/

namespace Trabalho12

open system_state_t FRESULT

/-! ## Debounce -/

theorem sub32_of_le (a b : Nat) (ha : a < 4294967296) (hb : b ≤ a) : sub32 a b = a - b := by
  unfold sub32
  omega

theorem irq_reject (g ev t : Nat) (s : Sys) (h : sub32 t s.last_interrupt_time < 200) :
    gpio_irq_handler g ev t s = s := by
  simp [gpio_irq_handler, h]

theorem irq_accept_last (g ev t : Nat) (s : Sys) (h : ¬ sub32 t s.last_interrupt_time < 200) :
    (gpio_irq_handler g ev t s).last_interrupt_time = t := by
  simp only [gpio_irq_handler, if_neg h]
  split
  · rfl
  · split <;> rfl

theorem BOTAO_B_ne_A : ¬ BOTAO_B = BOTAO_A := by decide

theorem BOTAO_A_ne_B : ¬ BOTAO_A = BOTAO_B := by decide

theorem irq_accept_a (g ev t : Nat) (s : Sys) (h : ¬ sub32 t s.last_interrupt_time < 200) :
    (gpio_irq_handler g ev t s).button_a_pressed = (s.button_a_pressed || decide (g = BOTAO_A)) := by
  simp only [gpio_irq_handler, if_neg h]
  by_cases hA : g = BOTAO_A
  · simp [hA]
  · by_cases hB : g = BOTAO_B
    · simp [hB, BOTAO_B_ne_A]
    · simp [hA, hB]

theorem irq_accept_b (g ev t : Nat) (s : Sys) (h : ¬ sub32 t s.last_interrupt_time < 200) :
    (gpio_irq_handler g ev t s).button_b_pressed = (s.button_b_pressed || decide (g = BOTAO_B)) := by
  simp only [gpio_irq_handler, if_neg h]
  by_cases hA : g = BOTAO_A
  · simp [hA, BOTAO_A_ne_B]
  · by_cases hB : g = BOTAO_B
    · simp [hB, BOTAO_B_ne_A]
    · simp [hA, hB]

theorem edge_accepted_iff (e : Edge) (s : Sys) (hL : s.last_interrupt_time ≤ e.time)
    (ht : e.time < 4294967296) :
    edge_accepted e s = true ↔ (200 : Int) ≤ (e.time : Int) - (s.last_interrupt_time : Int) := by
  have hsub := sub32_of_le e.time s.last_interrupt_time ht hL
  unfold edge_accepted
  by_cases h : sub32 e.time s.last_interrupt_time < 200
  · rw [irq_reject _ _ _ _ h]
    simp
    omega
  · rw [irq_accept_last _ _ _ _ h]
    simp
    omega

theorem irq_step_of_accepted (e : Edge) (s : Sys) (h : edge_accepted e s = true) :
    ¬ sub32 e.time s.last_interrupt_time < 200 := by
  intro hlt
  unfold edge_accepted at h
  rw [irq_reject _ _ _ _ hlt] at h
  simp at h

theorem irq_step_of_rejected (e : Edge) (s : Sys) (hL : s.last_interrupt_time ≤ e.time)
    (ht : e.time < 4294967296) (h : ¬ edge_accepted e s = true) :
    gpio_irq_handler e.gpio e.events e.time s = s := by
  apply irq_reject
  rw [edge_accepted_iff e s hL ht] at h
  rw [sub32_of_le e.time s.last_interrupt_time ht hL]
  omega

theorem irq_events_eq_spec (es : List Edge) :
    ∀ s : Sys, List.Chain (fun a b => a ≤ b) s.last_interrupt_time (es.map Edge.time) →
      (∀ e ∈ es, e.time < 4294967296) →
      irq_events es s = spec_button_events (s.last_interrupt_time : Int) es := by
  induction es with
  | nil => intro s _ _; rfl
  | cons e es ih =>
    intro s hmono hrange
    simp only [List.map_cons, List.chain_cons] at hmono
    have ht : e.time < 4294967296 := hrange e (List.mem_cons_self _ _)
    have hr : ∀ x ∈ es, x.time < 4294967296 := fun x hx => hrange x (List.mem_cons_of_mem _ hx)
    have hiff := edge_accepted_iff e s hmono.1 ht
    by_cases hacc : edge_accepted e s = true
    · have hge := hiff.mp hacc
      have hlast := irq_accept_last e.gpio e.events e.time s (irq_step_of_accepted e s hacc)
      have := ih (gpio_irq_handler e.gpio e.events e.time s) (by rw [hlast]; exact hmono.2) hr
      simp only [irq_events, spec_button_events, hacc, if_true, hge, this, hlast]
    · have hlt : ¬ (200 : Int) ≤ (e.time : Int) - (s.last_interrupt_time : Int) :=
        fun h => hacc (hiff.mpr h)
      have hsame := irq_step_of_rejected e s hmono.1 ht hacc
      have hchain : List.Chain (fun a b => a ≤ b) s.last_interrupt_time (es.map Edge.time) := by
        cases es with
        | nil => exact List.Chain.nil
        | cons x xs =>
          simp only [List.map_cons, List.chain_cons] at hmono ⊢
          exact ⟨le_trans hmono.1 hmono.2.1, hmono.2.2⟩
      have := ih s hchain hr
      simp only [irq_events, spec_button_events, hacc, hlt, if_false, hsame, this]
      simp

theorem irq_same_of_rejected (e : Edge) (s : Sys) (h : ¬ edge_accepted e s = true) :
    gpio_irq_handler e.gpio e.events e.time s = s := by
  by_cases hlt : sub32 e.time s.last_interrupt_time < 200
  · exact irq_reject _ _ _ _ hlt
  · exfalso
    have hlast := irq_accept_last e.gpio e.events e.time s hlt
    unfold edge_accepted at h
    rw [hlast] at h
    simp at h
    apply hlt
    rw [h]
    unfold sub32
    omega

theorem irq_run_flag_a (es : List Edge) :
    ∀ s : Sys, (irq_run es s).button_a_pressed
      = (s.button_a_pressed || (irq_events es s).any (fun e => decide (e.gpio = BOTAO_A))) := by
  induction es with
  | nil => intro s; simp [irq_run, irq_events]
  | cons e es ih =>
    intro s
    by_cases hacc : edge_accepted e s = true
    · simp only [irq_run, irq_events, hacc, if_true, ih, List.any_cons,
        irq_accept_a _ _ _ _ (irq_step_of_accepted e s hacc), Bool.or_assoc]
    · simp only [irq_run, irq_events, hacc, if_false, irq_same_of_rejected e s hacc, ih]
      simp

theorem irq_run_flag_b (es : List Edge) :
    ∀ s : Sys, (irq_run es s).button_b_pressed
      = (s.button_b_pressed || (irq_events es s).any (fun e => decide (e.gpio = BOTAO_B))) := by
  induction es with
  | nil => intro s; simp [irq_run, irq_events]
  | cons e es ih =>
    intro s
    by_cases hacc : edge_accepted e s = true
    · simp only [irq_run, irq_events, hacc, if_true, ih, List.any_cons,
        irq_accept_b _ _ _ _ (irq_step_of_accepted e s hacc), Bool.or_assoc]
    · simp only [irq_run, irq_events, hacc, if_false, irq_same_of_rejected e s hacc, ih]
      simp

theorem irq_run_last (es : List Edge) :
    ∀ s : Sys, (irq_run es s).last_interrupt_time
      = (((irq_events es s).getLast?).map Edge.time).getD s.last_interrupt_time := by
  induction es with
  | nil => intro s; simp [irq_run, irq_events]
  | cons e es ih =>
    intro s
    by_cases hacc : edge_accepted e s = true
    · have hlast := irq_accept_last e.gpio e.events e.time s (irq_step_of_accepted e s hacc)
      simp only [irq_run, irq_events, hacc, if_true, ih, hlast]
      cases hev : irq_events es (gpio_irq_handler e.gpio e.events e.time s) with
      | nil => simp
      | cons x xs =>
        rw [List.getLast?_cons_cons, List.getLast?_eq_getLast _ (List.cons_ne_nil x xs)]
        simp
    · simp only [irq_run, irq_events, hacc, if_false, irq_same_of_rejected e s hacc, ih]
      simp

/-- C1: on edges delivered at non-decreasing clock values, the handler accepts
an edge iff its time minus the time of the last accepted edge (of either
source) is at least 200 ms: the accepted edges are those the debounce rule of
the specification accepts, so their numbers agree; an accepted edge raises the
pending flag of its source and becomes the new last accepted time; two edges on
one input 100 ms apart, the first one outside the debounce window, give exactly
one event. -/
theorem debounce_accepts_iff_spaced (s : Sys) (es : List Edge)
    (hmono : List.Chain (fun a b => a ≤ b) s.last_interrupt_time (es.map Edge.time))
    (hrange : ∀ e ∈ es, e.time < 4294967296) :
    irq_events es s = spec_button_events (s.last_interrupt_time : Int) es
    ∧ (irq_events es s).length = (spec_button_events (s.last_interrupt_time : Int) es).length
    ∧ (∀ e : Edge, s.last_interrupt_time ≤ e.time → e.time < 4294967296 →
        (edge_accepted e s = true ↔ (200 : Int) ≤ (e.time : Int) - (s.last_interrupt_time : Int)))
    ∧ (irq_run es s).button_a_pressed = (s.button_a_pressed ||
        (spec_button_events (s.last_interrupt_time : Int) es).any (fun e => decide (e.gpio = BOTAO_A)))
    ∧ (irq_run es s).button_b_pressed = (s.button_b_pressed ||
        (spec_button_events (s.last_interrupt_time : Int) es).any (fun e => decide (e.gpio = BOTAO_B)))
    ∧ (irq_run es s).last_interrupt_time
        = (((spec_button_events (s.last_interrupt_time : Int) es).getLast?).map Edge.time).getD
            s.last_interrupt_time
    ∧ (∀ g ev1 ev2 t : Nat, s.last_interrupt_time + 200 ≤ t → t + 100 < 4294967296 →
        irq_events [⟨g, ev1, t⟩, ⟨g, ev2, t + 100⟩] s = [⟨g, ev1, t⟩]) := by
  have hev := irq_events_eq_spec es s hmono hrange
  refine ⟨hev, by rw [hev], fun e hle ht => edge_accepted_iff e s hle ht, ?_, ?_, ?_, ?_⟩
  · rw [← hev]; exact irq_run_flag_a es s
  · rw [← hev]; exact irq_run_flag_b es s
  · rw [← hev]; exact irq_run_last es s
  · intro g ev1 ev2 t h1 h2
    have hch : List.Chain (fun a b => a ≤ b) s.last_interrupt_time
        (([⟨g, ev1, t⟩, ⟨g, ev2, t + 100⟩] : List Edge).map Edge.time) := by
      simp only [List.map_cons, List.map_nil, List.chain_cons]
      exact ⟨by omega, by omega, List.Chain.nil⟩
    rw [irq_events_eq_spec _ s hch (by
      intro e he
      simp only [List.mem_cons, List.mem_singleton, List.not_mem_nil, or_false] at he
      rcases he with rfl | rfl <;> simp <;> omega)]
    have ha : (200 : Int) ≤ ((t : Nat) : Int) - (s.last_interrupt_time : Int) := by omega
    have hb : ¬ (200 : Int) ≤ ((t + 100 : Nat) : Int) - ((t : Nat) : Int) := by omega
    simp only [spec_button_events, ha, hb, if_true, if_false]

/-- C1, instance: from the state after `system_init` (last accepted time 0),
presses of A at 2000 ms and 2100 ms and of B at 2150 ms and 2300 ms. -/
theorem debounce_accepts_iff_spaced_witness :
    irq_events [⟨5, 0, 2000⟩, ⟨5, 0, 2100⟩, ⟨6, 0, 2150⟩, ⟨6, 0, 2300⟩] (boot (fun _ => none))
      = spec_button_events ((boot (fun _ => none)).last_interrupt_time : Int)
          [⟨5, 0, 2000⟩, ⟨5, 0, 2100⟩, ⟨6, 0, 2150⟩, ⟨6, 0, 2300⟩]
    ∧ spec_button_events (0 : Int) [⟨5, 0, 2000⟩, ⟨5, 0, 2100⟩, ⟨6, 0, 2150⟩, ⟨6, 0, 2300⟩]
      = [⟨5, 0, 2000⟩, ⟨6, 0, 2300⟩] :=
  ⟨(debounce_accepts_iff_spaced (boot (fun _ => none))
      [⟨5, 0, 2000⟩, ⟨5, 0, 2100⟩, ⟨6, 0, 2150⟩, ⟨6, 0, 2300⟩]
      (by simp [boot, system_init, update_display, led_green, led_yellow, set_rgb_color, sleep_ms,
            mpu6050_reset, emit, generate_filename, init_globals])
      (by decide)).1,
   by decide⟩

/-! ## Files of a session -/

theorem metadata_name_ne (n : String) : ¬ n = "metadata_" ++ n := by
  intro h
  have hl := congrArg String.length h
  rw [String.length_append] at hl
  have : ("metadata_" : String).length = 9 := by decide
  omega

theorem create_metadata_file_fields (o w : FRESULT) (s : Sys) :
    (create_metadata_file o w s).1 = decide (o = FR_OK ∧ w = FR_OK)
    ∧ (create_metadata_file o w s).2.files s.csv_filename = s.files s.csv_filename
    ∧ (create_metadata_file o w s).2.current_state = s.current_state
    ∧ (create_metadata_file o w s).2.capture_active = s.capture_active
    ∧ (create_metadata_file o w s).2.sd_mounted = s.sd_mounted
    ∧ (create_metadata_file o w s).2.button_a_pressed = s.button_a_pressed
    ∧ (create_metadata_file o w s).2.button_b_pressed = s.button_b_pressed
    ∧ (create_metadata_file o w s).2.sample_count = s.sample_count
    ∧ (create_metadata_file o w s).2.csv_filename = s.csv_filename
    ∧ (create_metadata_file o w s).2.file_counter = s.file_counter
    ∧ (create_metadata_file o w s).2.last_interrupt_time = s.last_interrupt_time
    ∧ (create_metadata_file o w s).2.last_sample_time = s.last_sample_time := by
  have hne := metadata_name_ne s.csv_filename
  by_cases ho : o = FR_OK <;> by_cases hw : w = FR_OK <;>
    simp [create_metadata_file, metadata_filename, emit, fs_create, fs_append, ho, hw, hne]

theorem create_csv_file_fields (inp : Inputs) (s : Sys) :
    (create_csv_file inp s).1 = decide (inp.csv_open = FR_OK ∧ inp.csv_write = FR_OK)
    ∧ (create_csv_file inp s).2.current_state = s.current_state
    ∧ (create_csv_file inp s).2.capture_active = s.capture_active
    ∧ (create_csv_file inp s).2.sd_mounted = s.sd_mounted
    ∧ (create_csv_file inp s).2.button_a_pressed = s.button_a_pressed
    ∧ (create_csv_file inp s).2.button_b_pressed = s.button_b_pressed
    ∧ (create_csv_file inp s).2.sample_count = s.sample_count
    ∧ (create_csv_file inp s).2.csv_filename = s.csv_filename
    ∧ (create_csv_file inp s).2.file_counter = s.file_counter
    ∧ (create_csv_file inp s).2.last_interrupt_time = s.last_interrupt_time
    ∧ (create_csv_file inp s).2.last_sample_time = s.last_sample_time := by
  by_cases ho : inp.csv_open = FR_OK
  · by_cases hw : inp.csv_write = FR_OK
    · simp only [create_csv_file, ho, hw, emit, ne_eq, not_true_eq_false, if_false, if_true]
      simp [create_metadata_file_fields]
    · simp only [create_csv_file, ho, hw, emit, ne_eq, not_true_eq_false, if_false]
      simp [create_metadata_file_fields, hw]
  · simp [create_csv_file, ho, emit]

theorem create_csv_file_record (inp : Inputs) (s : Sys) (ho : inp.csv_open = FR_OK)
    (hw : inp.csv_write = FR_OK) :
    (create_csv_file inp s).2.files s.csv_filename = some [Line.header] := by
  simp only [create_csv_file, ho, hw, emit, ne_eq, not_true_eq_false, if_false, if_true]
  have h := (create_metadata_file_fields inp.meta_open inp.meta_write
    { current_state := s.current_state, capture_active := s.capture_active,
      sd_mounted := s.sd_mounted, button_a_pressed := s.button_a_pressed,
      button_b_pressed := s.button_b_pressed, sample_count := s.sample_count,
      csv_filename := s.csv_filename, file_counter := s.file_counter,
      last_interrupt_time := s.last_interrupt_time, last_sample_time := s.last_sample_time,
      files := fs_append s.csv_filename Line.header (fs_create s.csv_filename s.files),
      trace := s.trace ++ [Effect.f_open_create s.csv_filename FR_OK] ++
        [Effect.f_write s.csv_filename FR_OK] ++ [Effect.f_close s.csv_filename] }).2.1
  simp only at h
  rw [h]
  simp [fs_append, fs_create]

/-- C8, as amended: `create_csv_file` returns failure exactly when opening the
record file or writing its header fails. The value `create_metadata_file`
returns is not looked at: when the record file and its header were written and
the metadata file could not be created or written, the call still returns
success, and the record file holds its header. -/
theorem create_csv_file_result (inp : Inputs) (s : Sys) :
    ((create_csv_file inp s).1 = true ↔ (inp.csv_open = FR_OK ∧ inp.csv_write = FR_OK))
    ∧ (inp.csv_open ≠ FR_OK → (create_csv_file inp s).1 = false)
    ∧ (inp.csv_open = FR_OK → inp.csv_write = FR_OK →
        (create_metadata_file inp.meta_open inp.meta_write s).1 = false →
        (create_csv_file inp s).1 = true
        ∧ (create_csv_file inp s).2.files s.csv_filename = some [Line.header]) := by
  have h := (create_csv_file_fields inp s).1
  refine ⟨by rw [h]; simp, fun ho => by rw [h]; simp [ho], fun ho hw _ => ?_⟩
  exact ⟨by rw [h]; simp [ho, hw], create_csv_file_record inp s ho hw⟩

/-- C8, instance: on the mounted medium, the record file is created and the
open of the metadata file fails. -/
theorem create_csv_file_result_witness :
    (create_csv_file { inputs_ok 4010 with meta_open := FR_ERR 1 } sys_mounted).1 = true
    ∧ (create_csv_file { inputs_ok 4010 with meta_open := FR_ERR 1 } sys_mounted).2.files
        sys_mounted.csv_filename = some [Line.header] :=
  (create_csv_file_result { inputs_ok 4010 with meta_open := FR_ERR 1 } sys_mounted).2.2
    rfl rfl (by simp [create_metadata_file, inputs_ok])

/-- C8, counterexample: the open of the metadata file fails, so
`create_metadata_file` returns failure, and `create_csv_file` returns success. -/
theorem create_csv_file_ignores_metadata_failure :
    (create_metadata_file (FR_ERR 1) FR_OK sys_mounted).1 = false
    ∧ (create_csv_file { inputs_ok 4010 with meta_open := FR_ERR 1 } sys_mounted).1 = true := by
  constructor
  · simp [create_metadata_file]
  · rw [(create_csv_file_fields _ _).1]
    simp [inputs_ok]

/-! ## Mount and unmount -/

theorem mount_sd_card_fields (f : Bool) (r : FRESULT) (s : Sys) :
    (mount_sd_card f r s).1 = decide (f = true ∧ r = FR_OK)
    ∧ (mount_sd_card f r s).2.sd_mounted = (s.sd_mounted || decide (f = true ∧ r = FR_OK))
    ∧ (mount_sd_card f r s).2.current_state
        = (if f = true ∧ ¬ r = FR_OK then STATE_ERROR else STATE_SD_ACCESS)
    ∧ (mount_sd_card f r s).2.capture_active = s.capture_active
    ∧ (mount_sd_card f r s).2.button_a_pressed = s.button_a_pressed
    ∧ (mount_sd_card f r s).2.button_b_pressed = s.button_b_pressed
    ∧ (mount_sd_card f r s).2.sample_count = s.sample_count
    ∧ (mount_sd_card f r s).2.csv_filename = s.csv_filename
    ∧ (mount_sd_card f r s).2.file_counter = s.file_counter
    ∧ (mount_sd_card f r s).2.last_interrupt_time = s.last_interrupt_time
    ∧ (mount_sd_card f r s).2.last_sample_time = s.last_sample_time
    ∧ (mount_sd_card f r s).2.files = s.files := by
  cases f <;> by_cases hr : r = FR_OK <;>
    simp [mount_sd_card, update_display, led_blue, led_purple, set_rgb_color, emit, hr]

theorem unmount_sd_card_fields (r : FRESULT) (s : Sys) :
    (unmount_sd_card r s).1 = decide (r = FR_OK)
    ∧ (unmount_sd_card r s).2.sd_mounted = (s.sd_mounted && !decide (r = FR_OK))
    ∧ (unmount_sd_card r s).2.current_state = STATE_SD_ACCESS
    ∧ (unmount_sd_card r s).2.capture_active = s.capture_active
    ∧ (unmount_sd_card r s).2.button_a_pressed = s.button_a_pressed
    ∧ (unmount_sd_card r s).2.button_b_pressed = s.button_b_pressed
    ∧ (unmount_sd_card r s).2.sample_count = s.sample_count
    ∧ (unmount_sd_card r s).2.csv_filename = s.csv_filename
    ∧ (unmount_sd_card r s).2.file_counter = s.file_counter
    ∧ (unmount_sd_card r s).2.last_interrupt_time = s.last_interrupt_time
    ∧ (unmount_sd_card r s).2.last_sample_time = s.last_sample_time
    ∧ (unmount_sd_card r s).2.files = s.files := by
  by_cases hr : r = FR_OK <;>
    simp [unmount_sd_card, update_display, led_blue, set_rgb_color, emit, hr]

/-- C10, as amended: with no capture active, a successful `mount_sd_card`
returns success and sets `sd_mounted`, a successful `unmount_sd_card` returns
success and clears it; every failing call returns failure and leaves
`sd_mounted` unchanged. Only the failure of `f_mount` sets `STATE_ERROR` inside
the call: when the file system object is not found, and on every failure of
`unmount_sd_card`, the call returns with `STATE_SD_ACCESS`. -/
theorem mount_unmount_result (f : Bool) (r : FRESULT) (s : Sys) (hcap : s.capture_active = false) :
    (f = true → r = FR_OK →
      (mount_sd_card f r s).1 = true ∧ (mount_sd_card f r s).2.sd_mounted = true)
    ∧ (r = FR_OK →
      (unmount_sd_card r s).1 = true ∧ (unmount_sd_card r s).2.sd_mounted = false)
    ∧ (f = true → r ≠ FR_OK →
      (mount_sd_card f r s).1 = false ∧ (mount_sd_card f r s).2.sd_mounted = s.sd_mounted
      ∧ (mount_sd_card f r s).2.current_state = STATE_ERROR)
    ∧ (f = false →
      (mount_sd_card f r s).1 = false ∧ (mount_sd_card f r s).2.sd_mounted = s.sd_mounted
      ∧ (mount_sd_card f r s).2.current_state = STATE_SD_ACCESS)
    ∧ (r ≠ FR_OK →
      (unmount_sd_card r s).1 = false ∧ (unmount_sd_card r s).2.sd_mounted = s.sd_mounted
      ∧ (unmount_sd_card r s).2.current_state = STATE_SD_ACCESS)
    ∧ (mount_sd_card f r s).2.capture_active = false
    ∧ (unmount_sd_card r s).2.capture_active = false := by
  obtain ⟨m1, m2, m3, m4, -⟩ := mount_sd_card_fields f r s
  obtain ⟨u1, u2, u3, u4, -⟩ := unmount_sd_card_fields r s
  rw [m1, m2, m3, m4, u1, u2, u3, u4]
  refine ⟨?_, ?_, ?_, ?_, ?_, hcap, hcap⟩
  · intro hf hr; simp [hf, hr]
  · intro hr; simp [hr]
  · intro hf hr; simp [hf, hr]
  · intro hf; simp [hf]
  · intro hr; simp [hr]

/-- C10, instance: the mounted, idle state and a failing `f_unmount`. -/
theorem mount_unmount_result_witness :
    (unmount_sd_card (FR_ERR 1) sys_mounted).1 = false
    ∧ (unmount_sd_card (FR_ERR 1) sys_mounted).2.sd_mounted = sys_mounted.sd_mounted
    ∧ (unmount_sd_card (FR_ERR 1) sys_mounted).2.current_state = STATE_SD_ACCESS :=
  (mount_unmount_result true (FR_ERR 1) sys_mounted (by decide)).2.2.2.2.1 (by decide)

/-- C10, counterexample: `f_unmount` fails with no capture active; the call
returns failure and the state it leaves is `STATE_SD_ACCESS`, not `STATE_ERROR`. -/
theorem unmount_failure_not_faulted :
    sys_mounted.capture_active = false
    ∧ (unmount_sd_card (FR_ERR 1) sys_mounted).1 = false
    ∧ (unmount_sd_card (FR_ERR 1) sys_mounted).2.current_state ≠ STATE_ERROR := by
  obtain ⟨u1, -, u3, -⟩ := unmount_sd_card_fields (FR_ERR 1) sys_mounted
  rw [u1, u3]
  exact ⟨by decide, by decide, by decide⟩

/-! ## One sample -/

theorem write_sensor_data_fields (o w : FRESULT) (ts n : Nat) (a g : Vec3) (s : Sys) :
    (write_sensor_data o w ts n a g s).1 = decide (o = FR_OK ∧ w = FR_OK)
    ∧ (write_sensor_data o w ts n a g s).2.current_state = s.current_state
    ∧ (write_sensor_data o w ts n a g s).2.capture_active = s.capture_active
    ∧ (write_sensor_data o w ts n a g s).2.sd_mounted = s.sd_mounted
    ∧ (write_sensor_data o w ts n a g s).2.button_a_pressed = s.button_a_pressed
    ∧ (write_sensor_data o w ts n a g s).2.button_b_pressed = s.button_b_pressed
    ∧ (write_sensor_data o w ts n a g s).2.sample_count = s.sample_count
    ∧ (write_sensor_data o w ts n a g s).2.csv_filename = s.csv_filename
    ∧ (write_sensor_data o w ts n a g s).2.file_counter = s.file_counter
    ∧ (write_sensor_data o w ts n a g s).2.last_interrupt_time = s.last_interrupt_time
    ∧ (write_sensor_data o w ts n a g s).2.last_sample_time = s.last_sample_time := by
  by_cases ho : o = FR_OK <;> by_cases hw : w = FR_OK <;> by_cases hn : n % 50 = 0 <;>
    simp [write_sensor_data, led_red, led_blue, sleep_ms, set_rgb_color, emit, ho, hw, hn]

theorem write_sensor_data_files (o w : FRESULT) (ts n : Nat) (a g : Vec3) (s : Sys)
    (ho : o = FR_OK) (hw : w = FR_OK) :
    (write_sensor_data o w ts n a g s).2.files s.csv_filename
      = some ((s.files s.csv_filename).getD [] ++ [Line.row n a g ts]) := by
  by_cases hn : n % 50 = 0 <;>
    simp [write_sensor_data, led_red, led_blue, sleep_ms, set_rgb_color, emit, ho, hw, hn,
      fs_append, fs_open_append]

theorem process_single_sample_fields (inp : Inputs) (s : Sys) :
    (process_single_sample inp s).sample_count
        = (if inp.sample_open = FR_OK ∧ inp.sample_write = FR_OK then inc32 s.sample_count
           else s.sample_count)
    ∧ (process_single_sample inp s).current_state
        = (if inp.sample_open = FR_OK ∧ inp.sample_write = FR_OK then s.current_state
           else STATE_ERROR)
    ∧ (process_single_sample inp s).capture_active
        = (s.capture_active && decide (inp.sample_open = FR_OK ∧ inp.sample_write = FR_OK))
    ∧ (process_single_sample inp s).sd_mounted = s.sd_mounted
    ∧ (process_single_sample inp s).button_a_pressed = s.button_a_pressed
    ∧ (process_single_sample inp s).button_b_pressed = s.button_b_pressed
    ∧ (process_single_sample inp s).csv_filename = s.csv_filename
    ∧ (process_single_sample inp s).file_counter = s.file_counter
    ∧ (process_single_sample inp s).last_interrupt_time = s.last_interrupt_time
    ∧ (process_single_sample inp s).last_sample_time = s.last_sample_time := by
  have hw := write_sensor_data_fields inp.sample_open inp.sample_write inp.timestamp
    (inc32 (mpu6050_read_raw s).sample_count) inp.accel inp.gyro (mpu6050_read_raw s)
  obtain ⟨h1, h2, h3, h4, h5, h6, h7, h8, h9, h10, h11⟩ := hw
  by_cases hok : inp.sample_open = FR_OK ∧ inp.sample_write = FR_OK
  · by_cases h10s : inc32 s.sample_count % 10 = 0
    · simp only [process_single_sample, h1, h2, h3, h4, h5, h6, h7, h8, h9, h10, h11, emit]
      simp [hok, emit, mpu6050_read_raw, h10s]
    · simp only [process_single_sample, h1, h2, h3, h4, h5, h6, h7, h8, h9, h10, h11, emit]
      simp [hok, emit, mpu6050_read_raw, h10s]
  · simp only [process_single_sample, h1, h2, h3, h4, h5, h6, h7, h8, h9, h10, h11, emit,
      update_display, led_purple, set_rgb_color]
    simp [hok, emit, mpu6050_read_raw]

/-- C4, as amended: when the record write succeeds, `process_single_sample`
replaces the sample counter `c` by `(c + 1) mod 2^32`, which is `c + 1` for
every `c` below 4294967295, and leaves `current_state` and `capture_active`
as they were; when the write fails it leaves the counter unchanged, sets
`STATE_ERROR` and clears `capture_active`. -/
theorem process_single_sample_counter (inp : Inputs) (s : Sys) :
    ((write_sensor_data inp.sample_open inp.sample_write inp.timestamp (inc32 s.sample_count)
        inp.accel inp.gyro (mpu6050_read_raw s)).1 = true →
      (process_single_sample inp s).sample_count = (s.sample_count + 1) % 4294967296
      ∧ (s.sample_count < 4294967295 →
          (process_single_sample inp s).sample_count = s.sample_count + 1)
      ∧ (process_single_sample inp s).current_state = s.current_state
      ∧ (process_single_sample inp s).capture_active = s.capture_active)
    ∧ ((write_sensor_data inp.sample_open inp.sample_write inp.timestamp (inc32 s.sample_count)
        inp.accel inp.gyro (mpu6050_read_raw s)).1 = false →
      (process_single_sample inp s).sample_count = s.sample_count
      ∧ (process_single_sample inp s).current_state = STATE_ERROR
      ∧ (process_single_sample inp s).capture_active = false) := by
  obtain ⟨p1, p2, p3, -⟩ := process_single_sample_fields inp s
  rw [(write_sensor_data_fields _ _ _ _ _ _ _).1, p1, p2, p3]
  constructor
  · intro h
    have hok : inp.sample_open = FR_OK ∧ inp.sample_write = FR_OK := by simpa using h
    simp only [hok, and_self, if_true, decide_True, Bool.and_true, inc32, true_and, and_true]
    intro hlt
    exact Nat.mod_eq_of_lt (by omega)
  · intro h
    have hok : ¬ (inp.sample_open = FR_OK ∧ inp.sample_write = FR_OK) := by simpa using h
    simp [hok]

/-- C4, instance: the first sample of a session, written successfully. -/
theorem process_single_sample_counter_witness :
    (process_single_sample (inputs_ok 4810) sys_capturing).sample_count
      = sys_capturing.sample_count + 1 :=
  ((process_single_sample_counter (inputs_ok 4810) sys_capturing).1
    (by rw [(write_sensor_data_fields _ _ _ _ _ _ _).1]; decide)).2.1 (by decide)

/-- C4, counterexample: with the counter at 4294967295 the record write
succeeds and the counter becomes 0, not 4294967296. -/
theorem process_single_sample_counter_wraps :
    (write_sensor_data (inputs_ok 4810).sample_open (inputs_ok 4810).sample_write
        (inputs_ok 4810).timestamp (inc32 sys_counter_max.sample_count) (inputs_ok 4810).accel
        (inputs_ok 4810).gyro (mpu6050_read_raw sys_counter_max)).1 = true
    ∧ sys_counter_max.sample_count = 4294967295
    ∧ (process_single_sample (inputs_ok 4810) sys_counter_max).sample_count = 0
    ∧ (process_single_sample (inputs_ok 4810) sys_counter_max).sample_count
        ≠ sys_counter_max.sample_count + 1 := by
  rw [(write_sensor_data_fields _ _ _ _ _ _ _).1, (process_single_sample_fields _ _).1]
  simp [inputs_ok, sys_counter_max, inc32]

/-! ## Button blocks -/

/-- C3: with no capture active and the medium not mounted, processing a
pending Start request (button A) creates and writes no file, leaves
`capture_active` false, `sd_mounted` false and the sample counter unchanged,
and ends with `STATE_READY`; the only effects are the error cue and the ready
cue. The same holds for the whole loop iteration when button B is not pending. -/
theorem start_unmounted_returns_ready (inp : Inputs) (s : Sys)
    (ha : s.button_a_pressed = true) (hcap : s.capture_active = false)
    (hsd : s.sd_mounted = false) :
    (button_a_block inp s).trace = s.trace ++
        [Effect.led true false true, Effect.display "ERRO" "SD nao montado" false none,
         Effect.beep 500 500, Effect.sleep 2000, Effect.led false true false,
         Effect.display "PRONTO" "A:Iniciar B:SD" false none]
    ∧ (∃ es, (button_a_block inp s).trace = s.trace ++ es ∧ es.all (fun e => !is_file_op e) = true)
    ∧ (button_a_block inp s).files = s.files
    ∧ (button_a_block inp s).capture_active = false
    ∧ (button_a_block inp s).sd_mounted = false
    ∧ (button_a_block inp s).sample_count = s.sample_count
    ∧ (button_a_block inp s).current_state = STATE_READY
    ∧ (button_a_block inp s).button_a_pressed = false
    ∧ (s.button_b_pressed = false →
        (main_loop_iteration inp s).trace = (button_a_block inp s).trace ++ [Effect.sleep 10]
        ∧ (main_loop_iteration inp s).files = s.files
        ∧ (main_loop_iteration inp s).capture_active = false
        ∧ (main_loop_iteration inp s).sd_mounted = false
        ∧ (main_loop_iteration inp s).sample_count = s.sample_count
        ∧ (main_loop_iteration inp s).current_state = STATE_READY) := by
  have hA : button_a_block inp s =
      { s with
        button_a_pressed := false
        current_state := STATE_READY
        trace := s.trace ++
          [Effect.led true false true, Effect.display "ERRO" "SD nao montado" false none,
           Effect.beep 500 500, Effect.sleep 2000, Effect.led false true false,
           Effect.display "PRONTO" "A:Iniciar B:SD" false none] } := by
    simp [button_a_block, ha, hcap, hsd, update_display, led_purple, led_green, set_rgb_color,
      buzzer_beep, sleep_ms, emit]
  have hS : sampling_block inp s = s := by simp [sampling_block, hcap]
  refine ⟨by rw [hA], ⟨_, by rw [hA], by decide⟩, by rw [hA], by rw [hA]; exact hcap,
    by rw [hA]; exact hsd, by rw [hA], by rw [hA], by rw [hA], ?_⟩
  intro hb
  have hB : button_b_block inp (button_a_block inp s) = (button_a_block inp s, false) := by
    rw [hA]
    simp [button_b_block, hb]
  have hM : main_loop_iteration inp s = sleep_ms 10 (button_a_block inp s) := by
    simp only [main_loop_iteration, hS, hB]
    simp
  rw [hM, hA]
  simp [sleep_ms, emit, hcap, hsd]

/-- C3, instance: right after `system_init` (nothing mounted), A pressed at 3000 ms. -/
theorem start_unmounted_returns_ready_witness :
    (button_a_block (inputs_ok 3010) (gpio_irq_handler BOTAO_A 0 3000 sys_boot)).current_state
      = STATE_READY
    ∧ (button_a_block (inputs_ok 3010) (gpio_irq_handler BOTAO_A 0 3000 sys_boot)).files
      = (gpio_irq_handler BOTAO_A 0 3000 sys_boot).files :=
  ⟨(start_unmounted_returns_ready (inputs_ok 3010) (gpio_irq_handler BOTAO_A 0 3000 sys_boot)
      (by decide) (by decide) (by decide)).2.2.2.2.2.2.1,
   (start_unmounted_returns_ready (inputs_ok 3010) (gpio_irq_handler BOTAO_A 0 3000 sys_boot)
      (by decide) (by decide) (by decide)).2.2.1⟩

/-- C6: with a capture active, processing a pending Storage toggle request
(button B) issues no mount and no unmount call and leaves `current_state`,
`capture_active`, `sd_mounted`, the sample counter, the record file name and
the files unchanged; the only effects are the error cue and the restored
capture screen, and the iteration ends through `continue`. -/
theorem toggle_while_capturing_is_refused (inp : Inputs) (s : Sys)
    (hb : s.button_b_pressed = true) (hcap : s.capture_active = true) :
    (button_b_block inp s).1.trace = s.trace ++
        [Effect.beep 500 500,
         Effect.display "ERRO" "Pare captura antes" s.sd_mounted (some s.sample_count),
         Effect.sleep 2000,
         Effect.display "GRAVANDO" "A:Parar" s.sd_mounted (some s.sample_count)]
    ∧ (∃ es, (button_b_block inp s).1.trace = s.trace ++ es
        ∧ es.all (fun e => !is_mount_op e) = true)
    ∧ (button_b_block inp s).1.current_state = s.current_state
    ∧ (button_b_block inp s).1.capture_active = true
    ∧ (button_b_block inp s).1.sd_mounted = s.sd_mounted
    ∧ (button_b_block inp s).1.sample_count = s.sample_count
    ∧ (button_b_block inp s).1.csv_filename = s.csv_filename
    ∧ (button_b_block inp s).1.files = s.files
    ∧ (button_b_block inp s).1.last_sample_time = s.last_sample_time
    ∧ (button_b_block inp s).1.button_b_pressed = false
    ∧ (button_b_block inp s).2 = true := by
  have hB : button_b_block inp s =
      ({ s with
         button_b_pressed := false
         trace := s.trace ++
          [Effect.beep 500 500,
           Effect.display "ERRO" "Pare captura antes" s.sd_mounted (some s.sample_count),
           Effect.sleep 2000,
           Effect.display "GRAVANDO" "A:Parar" s.sd_mounted (some s.sample_count)] }, true) := by
    simp [button_b_block, hb, hcap, update_display, buzzer_beep, sleep_ms, emit]
  rw [hB]
  refine ⟨rfl, ⟨_, rfl, ?_⟩, rfl, hcap, rfl, rfl, rfl, rfl, rfl, rfl, rfl⟩
  simp [is_mount_op]

/-- C6, instance: B pressed at 5000 ms during the capture started at 4000 ms. -/
theorem toggle_while_capturing_is_refused_witness :
    (button_b_block (inputs_ok 5010) (gpio_irq_handler BOTAO_B 0 5000 sys_capturing)).1.current_state
      = (gpio_irq_handler BOTAO_B 0 5000 sys_capturing).current_state
    ∧ (button_b_block (inputs_ok 5010) (gpio_irq_handler BOTAO_B 0 5000 sys_capturing)).1.capture_active
      = true :=
  ⟨(toggle_while_capturing_is_refused (inputs_ok 5010) (gpio_irq_handler BOTAO_B 0 5000 sys_capturing)
      (by decide) (by decide)).2.2.1,
   (toggle_while_capturing_is_refused (inputs_ok 5010) (gpio_irq_handler BOTAO_B 0 5000 sys_capturing)
      (by decide) (by decide)).2.2.2.1⟩

/-! ## Trace of the file functions -/

theorem mwc_eval :
    (∀ r g b, mount_while_capturing (Effect.led r g b) = false)
    ∧ (∀ f d, mount_while_capturing (Effect.beep f d) = false)
    ∧ (∀ m, mount_while_capturing (Effect.sleep m) = false)
    ∧ (∀ a b c d, mount_while_capturing (Effect.display a b c d) = false)
    ∧ (∀ c f, mount_while_capturing (Effect.progress c f) = false)
    ∧ mount_while_capturing Effect.sensor_read = false
    ∧ (∀ n r, mount_while_capturing (Effect.f_open_create n r) = false)
    ∧ (∀ n r, mount_while_capturing (Effect.f_open_append n r) = false)
    ∧ (∀ n r, mount_while_capturing (Effect.f_write n r) = false)
    ∧ (∀ n, mount_while_capturing (Effect.f_close n) = false)
    ∧ (∀ c r, mount_while_capturing (Effect.f_mount c r) = c)
    ∧ (∀ c r, mount_while_capturing (Effect.f_unmount c r) = c) :=
  ⟨fun _ _ _ => rfl, fun _ _ => rfl, fun _ => rfl, fun _ _ _ _ => rfl, fun _ _ => rfl, rfl,
   fun _ _ => rfl, fun _ _ => rfl, fun _ _ => rfl, fun _ => rfl, fun _ _ => rfl, fun _ _ => rfl⟩

theorem clean_emit (es : List Effect) (s : Sys) :
    clean (emit es s) = (clean s && es.all (fun e => !mount_while_capturing e)) := by
  simp [clean, emit, List.all_append]

theorem clean_create_metadata_file (o w : FRESULT) (s : Sys) :
    clean (create_metadata_file o w s).2 = clean s := by
  by_cases ho : o = FR_OK <;> by_cases hw : w = FR_OK <;>
    simp [create_metadata_file, clean, emit, ho, hw, mwc_eval]

theorem clean_create_csv_file (inp : Inputs) (s : Sys) :
    clean (create_csv_file inp s).2 = clean s := by
  by_cases ho : inp.csv_open = FR_OK
  · by_cases hw : inp.csv_write = FR_OK
    · simp only [create_csv_file, ho, hw, ne_eq, not_true_eq_false, if_false, if_true,
        clean_create_metadata_file, clean_emit]
      simp [clean, emit, mwc_eval]
    · simp only [create_csv_file, ho, hw, ne_eq, not_true_eq_false, if_false,
        clean_create_metadata_file, clean_emit]
      simp [clean, emit, mwc_eval]
  · simp [create_csv_file, ho, clean, emit, mwc_eval]

theorem clean_write_sensor_data (o w : FRESULT) (ts n : Nat) (a g : Vec3) (s : Sys) :
    clean (write_sensor_data o w ts n a g s).2 = clean s := by
  by_cases ho : o = FR_OK <;> by_cases hw : w = FR_OK <;> by_cases hn : n % 50 = 0 <;>
    simp [write_sensor_data, led_red, led_blue, sleep_ms, set_rgb_color, emit, ho, hw, hn,
      clean, mwc_eval]

theorem clean_process_single_sample (inp : Inputs) (s : Sys) :
    clean (process_single_sample inp s) = clean s := by
  have hw := clean_write_sensor_data inp.sample_open inp.sample_write inp.timestamp
    (inc32 (mpu6050_read_raw s).sample_count) inp.accel inp.gyro (mpu6050_read_raw s)
  have hs : clean (mpu6050_read_raw s) = clean s := by
    simp [mpu6050_read_raw, clean_emit, mwc_eval]
  rw [hs] at hw
  unfold process_single_sample
  simp only []
  split
  · split
    · simp only [clean, emit] at hw ⊢
      simp [hw, mwc_eval, List.all_append]
    · simp only [clean] at hw ⊢
      exact hw
  · simp only [clean, update_display, led_purple, set_rgb_color, emit] at hw ⊢
    simp [hw, mwc_eval, List.all_append]

/-! ## The three blocks of the main loop -/

theorem sampling_block_idle (inp : Inputs) (s : Sys)
    (h : ¬ (s.capture_active = true ∧ 50 ≤ sub32 inp.current_time s.last_sample_time)) :
    sampling_block inp s = s := by
  simp only [sampling_block, sample_interval, Bool.and_eq_true, decide_eq_true_eq, h, if_false]

theorem sampling_block_fired (inp : Inputs) (s : Sys)
    (h : s.capture_active = true ∧ 50 ≤ sub32 inp.current_time s.last_sample_time) :
    sampling_block inp s
      = { process_single_sample inp s with last_sample_time := inp.current_time } := by
  simp only [sampling_block, sample_interval, Bool.and_eq_true, decide_eq_true_eq, h, and_self,
    if_true]

theorem sampling_block_fields (inp : Inputs) (s : Sys) :
    (sampling_block inp s).sd_mounted = s.sd_mounted
    ∧ (sampling_block inp s).button_a_pressed = s.button_a_pressed
    ∧ (sampling_block inp s).button_b_pressed = s.button_b_pressed
    ∧ (sampling_block inp s).csv_filename = s.csv_filename
    ∧ (sampling_block inp s).file_counter = s.file_counter
    ∧ (sampling_block inp s).last_interrupt_time = s.last_interrupt_time
    ∧ ((sampling_block inp s).capture_active = true → s.capture_active = true)
    ∧ clean (sampling_block inp s) = clean s := by
  by_cases h : s.capture_active = true ∧ 50 ≤ sub32 inp.current_time s.last_sample_time
  · obtain ⟨-, -, p3, p4, p5, p6, p7, p8, p9, -⟩ := process_single_sample_fields inp s
    have hc := clean_process_single_sample inp s
    rw [sampling_block_fired inp s h]
    refine ⟨p4, p5, p6, p7, p8, p9, fun _ => h.1, ?_⟩
    simp only [clean] at hc ⊢
    exact hc
  · rw [sampling_block_idle inp s h]
    simp

theorem start_capture_fields (inp : Inputs) (s : Sys) :
    (start_capture inp s).capture_active
        = (s.capture_active || decide (inp.csv_open = FR_OK ∧ inp.csv_write = FR_OK))
    ∧ (start_capture inp s).current_state
        = (if inp.csv_open = FR_OK ∧ inp.csv_write = FR_OK then STATE_CAPTURING else STATE_READY)
    ∧ (start_capture inp s).sample_count = 0
    ∧ (start_capture inp s).last_sample_time
        = (if inp.csv_open = FR_OK ∧ inp.csv_write = FR_OK then inp.current_time
           else s.last_sample_time)
    ∧ (start_capture inp s).sd_mounted = s.sd_mounted
    ∧ (start_capture inp s).button_a_pressed = s.button_a_pressed
    ∧ (start_capture inp s).button_b_pressed = s.button_b_pressed
    ∧ (start_capture inp s).csv_filename = s.csv_filename
    ∧ (start_capture inp s).file_counter = s.file_counter
    ∧ (start_capture inp s).last_interrupt_time = s.last_interrupt_time
    ∧ (start_capture inp s).files = (create_csv_file inp { s with sample_count := 0 }).2.files
    ∧ clean (start_capture inp s) = clean s := by
  obtain ⟨c1, c2, c3, c4, c5, c6, c7, c8, c9, c10, c11⟩ :=
    create_csv_file_fields inp { s with sample_count := 0 }
  have hc := clean_create_csv_file inp { s with sample_count := 0 }
  simp only [clean] at hc
  by_cases hok : inp.csv_open = FR_OK ∧ inp.csv_write = FR_OK
  · simp only [start_capture, c1, hok, and_self, decide_True, if_true, update_display, led_red,
      buzzer_single_beep, buzzer_beep, sleep_ms, set_rgb_color, emit, clean]
    simp [c2, c3, c4, c5, c6, c7, c8, c9, c10, c11, hc, mwc_eval, List.all_append]
  · simp only [start_capture, c1, hok, decide_False, Bool.false_eq_true, if_false,
      update_display, led_purple, led_green, buzzer_beep, sleep_ms, set_rgb_color, emit, clean]
    simp [c2, c3, c4, c5, c6, c7, c8, c9, c10, c11, hc, mwc_eval, List.all_append]

theorem button_a_block_idle (inp : Inputs) (s : Sys) (h : s.button_a_pressed = false) :
    button_a_block inp s = s := by
  simp [button_a_block, h]

theorem button_a_block_start (inp : Inputs) (s : Sys) (ha : s.button_a_pressed = true)
    (hcap : s.capture_active = false) (hsd : s.sd_mounted = true) :
    button_a_block inp s = start_capture inp { s with button_a_pressed := false } := by
  simp [button_a_block, ha, hcap, hsd]

theorem button_a_block_fields (inp : Inputs) (s : Sys) :
    (button_a_block inp s).sd_mounted = s.sd_mounted
    ∧ (button_a_block inp s).button_b_pressed = s.button_b_pressed
    ∧ (button_a_block inp s).csv_filename = s.csv_filename
    ∧ (button_a_block inp s).file_counter = s.file_counter
    ∧ (button_a_block inp s).last_interrupt_time = s.last_interrupt_time
    ∧ ((button_a_block inp s).capture_active = true →
        (s.capture_active = true ∧ s.button_a_pressed = false) ∨ s.sd_mounted = true)
    ∧ clean (button_a_block inp s) = clean s := by
  by_cases ha : s.button_a_pressed = true
  · by_cases hcap : s.capture_active = true
    · simp [button_a_block, ha, hcap, update_display, led_green, buzzer_double_beep, buzzer_beep,
        sleep_ms, set_rgb_color, emit, clean, mwc_eval, List.all_append]
    · have hcap' : s.capture_active = false := by simpa using hcap
      by_cases hsd : s.sd_mounted = true
      · obtain ⟨-, -, -, -, c5, -, c7, c8, c9, c10, -, c12⟩ :=
          start_capture_fields inp { s with button_a_pressed := false }
        rw [button_a_block_start inp s ha hcap' hsd]
        refine ⟨c5, c7, c8, c9, c10, fun _ => Or.inr hsd, ?_⟩
        simp only [clean] at c12 ⊢
        exact c12
      · have hsd' : s.sd_mounted = false := by simpa using hsd
        simp [button_a_block, ha, hcap', hsd', update_display, led_green, led_purple, buzzer_beep,
          sleep_ms, set_rgb_color, emit, clean, mwc_eval, List.all_append]
  · have ha' : s.button_a_pressed = false := by simpa using ha
    rw [button_a_block_idle inp s ha']
    exact ⟨rfl, rfl, rfl, rfl, rfl, fun h => Or.inl ⟨h, ha'⟩, rfl⟩

theorem mount_request_fields (inp : Inputs) (s : Sys) :
    (mount_request inp s).current_state = STATE_READY
    ∧ (mount_request inp s).capture_active = s.capture_active
    ∧ (mount_request inp s).sd_mounted
        = (s.sd_mounted || decide (inp.fs_found = true ∧ inp.mount_res = FR_OK))
    ∧ (mount_request inp s).csv_filename = s.csv_filename
    ∧ (mount_request inp s).file_counter = s.file_counter
    ∧ (mount_request inp s).last_interrupt_time = s.last_interrupt_time
    ∧ (mount_request inp s).sample_count = s.sample_count
    ∧ (mount_request inp s).button_a_pressed = s.button_a_pressed
    ∧ (mount_request inp s).button_b_pressed = s.button_b_pressed
    ∧ (mount_request inp s).files = s.files
    ∧ (s.capture_active = false → clean (mount_request inp s) = clean s) := by
  obtain ⟨m1, m2, -, m4, m5, m6, m7, m8, m9, m10, m11, m12⟩ :=
    mount_sd_card_fields inp.fs_found inp.mount_res s
  have hc : s.capture_active = false →
      clean (mount_sd_card inp.fs_found inp.mount_res s).2 = clean s := by
    intro hcap
    cases hf : inp.fs_found <;> by_cases hr : inp.mount_res = FR_OK <;>
      simp [mount_sd_card, update_display, led_blue, led_purple, set_rgb_color, emit, hr, hcap,
        clean, mwc_eval, List.all_append]
  simp only [clean] at hc
  simp only [mount_request, update_display, led_green, led_purple, buzzer_single_beep,
    buzzer_beep, sleep_ms, set_rgb_color, emit, clean, m1, m2, m4, m5, m6, m7, m8, m9, m10, m11,
    m12]
  cases hd : decide (inp.fs_found = true ∧ inp.mount_res = FR_OK)
  · simp only [Bool.false_eq_true, if_false, Bool.or_false, true_and]
    intro hcap
    simp [hc hcap, mwc_eval, List.all_append]
  · simp only [if_true, Bool.or_true, true_and]
    intro hcap
    simp [hc hcap, mwc_eval, List.all_append]

theorem unmount_request_fields (inp : Inputs) (s : Sys) :
    (unmount_request inp s).current_state = STATE_READY
    ∧ (unmount_request inp s).capture_active = s.capture_active
    ∧ (unmount_request inp s).sd_mounted = (s.sd_mounted && !decide (inp.unmount_res = FR_OK))
    ∧ (unmount_request inp s).csv_filename = s.csv_filename
    ∧ (unmount_request inp s).file_counter = s.file_counter
    ∧ (unmount_request inp s).last_interrupt_time = s.last_interrupt_time
    ∧ (unmount_request inp s).sample_count = s.sample_count
    ∧ (unmount_request inp s).button_a_pressed = s.button_a_pressed
    ∧ (unmount_request inp s).button_b_pressed = s.button_b_pressed
    ∧ (unmount_request inp s).files = s.files
    ∧ (s.capture_active = false → clean (unmount_request inp s) = clean s) := by
  obtain ⟨m1, m2, -, m4, m5, m6, m7, m8, m9, m10, m11, m12⟩ :=
    unmount_sd_card_fields inp.unmount_res s
  have hc : s.capture_active = false →
      clean (unmount_sd_card inp.unmount_res s).2 = clean s := by
    intro hcap
    by_cases hr : inp.unmount_res = FR_OK <;>
      simp [unmount_sd_card, update_display, led_blue, set_rgb_color, emit, hr, hcap,
        clean, mwc_eval, List.all_append]
  simp only [clean] at hc
  simp only [unmount_request, update_display, led_green, led_purple, buzzer_double_beep,
    buzzer_beep, sleep_ms, set_rgb_color, emit, clean, m1, m2, m4, m5, m6, m7, m8, m9, m10, m11,
    m12]
  cases hd : decide (inp.unmount_res = FR_OK)
  · simp only [Bool.false_eq_true, if_false, Bool.not_false, Bool.and_true, true_and]
    intro hcap
    simp [hc hcap, mwc_eval, List.all_append]
  · simp only [if_true, Bool.not_true, Bool.and_false, true_and]
    intro hcap
    simp [hc hcap, mwc_eval, List.all_append]

theorem button_b_block_idle (inp : Inputs) (s : Sys) (h : s.button_b_pressed = false) :
    button_b_block inp s = (s, false) := by
  simp [button_b_block, h]

theorem button_b_block_fields (inp : Inputs) (s : Sys) :
    (button_b_block inp s).1.capture_active = s.capture_active
    ∧ (button_b_block inp s).1.csv_filename = s.csv_filename
    ∧ (button_b_block inp s).1.file_counter = s.file_counter
    ∧ (button_b_block inp s).1.last_interrupt_time = s.last_interrupt_time
    ∧ (button_b_block inp s).1.sample_count = s.sample_count
    ∧ (button_b_block inp s).1.files = s.files
    ∧ (s.capture_active = true → (button_b_block inp s).1.sd_mounted = s.sd_mounted)
    ∧ clean (button_b_block inp s).1 = clean s := by
  by_cases hb : s.button_b_pressed = true
  · by_cases hcap : s.capture_active = true
    · simp [button_b_block, hb, hcap, update_display, buzzer_beep, sleep_ms, emit, clean,
        mwc_eval, List.all_append]
    · have hcap' : s.capture_active = false := by simpa using hcap
      by_cases hsd : s.sd_mounted = true
      · have hB : button_b_block inp s
            = (unmount_request inp { s with button_b_pressed := false }, false) := by
          simp [button_b_block, hb, hcap', hsd]
        obtain ⟨-, u2, -, u4, u5, u6, u7, -, -, u10, u11⟩ :=
          unmount_request_fields inp { s with button_b_pressed := false }
        have hc := u11 hcap'
        simp only [clean] at hc
        rw [hB]
        exact ⟨u2, u4, u5, u6, u7, u10, (fun h => absurd h (by simp [hcap'])), hc⟩
      · have hsd' : s.sd_mounted = false := by simpa using hsd
        have hB : button_b_block inp s
            = (mount_request inp { s with button_b_pressed := false }, false) := by
          simp [button_b_block, hb, hcap', hsd']
        obtain ⟨-, u2, -, u4, u5, u6, u7, -, -, u10, u11⟩ :=
          mount_request_fields inp { s with button_b_pressed := false }
        have hc := u11 hcap'
        simp only [clean] at hc
        rw [hB]
        exact ⟨u2, u4, u5, u6, u7, u10, (fun h => absurd h (by simp [hcap'])), hc⟩
  · have hb' : s.button_b_pressed = false := by simpa using hb
    rw [button_b_block_idle inp s hb']
    exact ⟨rfl, rfl, rfl, rfl, rfl, rfl, fun _ => rfl, rfl⟩

theorem sleep_ms_fields (ms : Nat) (s : Sys) :
    (sleep_ms ms s).current_state = s.current_state
    ∧ (sleep_ms ms s).capture_active = s.capture_active
    ∧ (sleep_ms ms s).sd_mounted = s.sd_mounted
    ∧ (sleep_ms ms s).button_a_pressed = s.button_a_pressed
    ∧ (sleep_ms ms s).button_b_pressed = s.button_b_pressed
    ∧ (sleep_ms ms s).sample_count = s.sample_count
    ∧ (sleep_ms ms s).csv_filename = s.csv_filename
    ∧ (sleep_ms ms s).file_counter = s.file_counter
    ∧ (sleep_ms ms s).last_interrupt_time = s.last_interrupt_time
    ∧ (sleep_ms ms s).last_sample_time = s.last_sample_time
    ∧ (sleep_ms ms s).files = s.files
    ∧ clean (sleep_ms ms s) = clean s := by
  simp [sleep_ms, emit, clean, mwc_eval, List.all_append]

theorem main_loop_iteration_eq (inp : Inputs) (s : Sys) :
    main_loop_iteration inp s
        = (button_b_block inp (button_a_block inp (sampling_block inp s))).1
    ∨ main_loop_iteration inp s
        = sleep_ms 10 (button_b_block inp (button_a_block inp (sampling_block inp s))).1 := by
  unfold main_loop_iteration
  simp only []
  split
  · exact Or.inl rfl
  · exact Or.inr rfl

theorem main_loop_iteration_name (inp : Inputs) (s : Sys) :
    (main_loop_iteration inp s).csv_filename = s.csv_filename
    ∧ (main_loop_iteration inp s).file_counter = s.file_counter := by
  obtain ⟨-, -, -, s4, s5, -⟩ := sampling_block_fields inp s
  obtain ⟨-, -, a3, a4, -⟩ := button_a_block_fields inp (sampling_block inp s)
  obtain ⟨-, b2, b3, -⟩ := button_b_block_fields inp (button_a_block inp (sampling_block inp s))
  obtain ⟨-, -, -, -, -, -, z7, z8, -⟩ :=
    sleep_ms_fields 10 (button_b_block inp (button_a_block inp (sampling_block inp s))).1
  rcases main_loop_iteration_eq inp s with h | h <;> rw [h]
  · exact ⟨by rw [b2, a3, s4], by rw [b3, a4, s5]⟩
  · exact ⟨by rw [z7, b2, a3, s4], by rw [z8, b3, a4, s5]⟩

theorem main_loop_iteration_inv (inp : Inputs) (s : Sys) (h : Inv s) :
    Inv (main_loop_iteration inp s) := by
  obtain ⟨s1, -, -, -, -, -, s7, s8⟩ := sampling_block_fields inp s
  obtain ⟨a1, -, -, -, -, a6, a7⟩ := button_a_block_fields inp (sampling_block inp s)
  obtain ⟨b1, -, -, -, -, -, b7, b8⟩ :=
    button_b_block_fields inp (button_a_block inp (sampling_block inp s))
  obtain ⟨-, z2, z3, -, -, -, -, -, -, -, -, z12⟩ :=
    sleep_ms_fields 10 (button_b_block inp (button_a_block inp (sampling_block inp s))).1
  have hA : (button_a_block inp (sampling_block inp s)).capture_active = true →
      (button_a_block inp (sampling_block inp s)).sd_mounted = true := by
    intro hc
    rw [a1, s1]
    rcases a6 hc with ⟨hc1, -⟩ | hsd
    · exact h.1 (s7 hc1)
    · rw [← s1]; exact hsd
  have hB : Inv (button_b_block inp (button_a_block inp (sampling_block inp s))).1 := by
    constructor
    · intro hc
      rw [b1] at hc
      rw [b7 hc]
      exact hA hc
    · rw [b8, a7, s8]; exact h.2
  rcases main_loop_iteration_eq inp s with e | e <;> rw [e]
  · exact hB
  · exact ⟨by rw [z2, z3]; exact hB.1, by rw [z12]; exact hB.2⟩

theorem gpio_irq_handler_fields (g ev t : Nat) (s : Sys) :
    (gpio_irq_handler g ev t s).current_state = s.current_state
    ∧ (gpio_irq_handler g ev t s).capture_active = s.capture_active
    ∧ (gpio_irq_handler g ev t s).sd_mounted = s.sd_mounted
    ∧ (gpio_irq_handler g ev t s).sample_count = s.sample_count
    ∧ (gpio_irq_handler g ev t s).csv_filename = s.csv_filename
    ∧ (gpio_irq_handler g ev t s).file_counter = s.file_counter
    ∧ (gpio_irq_handler g ev t s).last_sample_time = s.last_sample_time
    ∧ (gpio_irq_handler g ev t s).files = s.files
    ∧ (gpio_irq_handler g ev t s).trace = s.trace := by
  unfold gpio_irq_handler
  simp only []
  split
  · simp
  · split
    · simp
    · split <;> simp

theorem boot_fields (files : Files) :
    (boot files).csv_filename = "data_001.csv" ∧ (boot files).file_counter = 2
    ∧ (boot files).capture_active = false ∧ (boot files).sd_mounted = false
    ∧ (boot files).current_state = STATE_READY ∧ clean (boot files) = true := by
  refine ⟨?_, rfl, rfl, rfl, rfl, rfl⟩
  show "data_" ++ fmt_03d 1 ++ ".csv" = "data_001.csv"
  decide

theorem reachable_inv (files : Files) (s : Sys) (h : Reachable files s) : Inv s := by
  induction h with
  | boot => exact ⟨fun hc => by simp [(boot_fields files).2.2.1] at hc, (boot_fields files).2.2.2.2.2⟩
  | irq s g ev t _ ih =>
    obtain ⟨-, f2, f3, -, -, -, -, -, f9⟩ := gpio_irq_handler_fields g ev t s
    exact ⟨by rw [f2, f3]; exact ih.1, by simp only [clean, f9]; exact ih.2⟩
  | loop s inp _ ih => exact main_loop_iteration_inv inp s ih

theorem reachable_name (files : Files) (s : Sys) (h : Reachable files s) :
    s.csv_filename = "data_001.csv" ∧ s.file_counter = 2 := by
  induction h with
  | boot => exact ⟨(boot_fields files).1, (boot_fields files).2.1⟩
  | irq s g ev t _ ih =>
    obtain ⟨-, -, -, -, f5, f6, -⟩ := gpio_irq_handler_fields g ev t s
    exact ⟨by rw [f5]; exact ih.1, by rw [f6]; exact ih.2⟩
  | loop s inp _ ih =>
    obtain ⟨m1, m2⟩ := main_loop_iteration_name inp s
    exact ⟨by rw [m1]; exact ih.1, by rw [m2]; exact ih.2⟩

theorem reachable_sys_capturing : Reachable (fun _ => none) sys_capturing :=
  Reachable.loop _ _ (Reachable.irq _ _ _ _ (Reachable.loop _ _
    (Reachable.irq _ _ _ _ Reachable.boot)))

/-- C9: in every state reachable from system start by button interrupts and
main-loop iterations with arbitrary collaborator results, a capture is active
only if the medium is mounted, and every mount or unmount call of the trace was
issued while `capture_active` was false. -/
theorem capture_requires_mounted (files : Files) (s : Sys) (h : Reachable files s) :
    (s.capture_active = true → s.sd_mounted = true)
    ∧ (∀ c r, Effect.f_mount c r ∈ s.trace → c = false)
    ∧ (∀ c r, Effect.f_unmount c r ∈ s.trace → c = false) := by
  obtain ⟨h1, h2⟩ := reachable_inv files s h
  simp only [clean, List.all_eq_true] at h2
  refine ⟨h1, fun c r hm => ?_, fun c r hm => ?_⟩
  · have := h2 _ hm
    simpa [mwc_eval] using this
  · have := h2 _ hm
    simpa [mwc_eval] using this

/-- C9, instance: the capturing state reached by mounting at 3000 ms and
starting at 4000 ms; its trace holds the mount call, issued with no capture. -/
theorem capture_requires_mounted_witness :
    sys_capturing.capture_active = true
    ∧ sys_capturing.sd_mounted = true
    ∧ Effect.f_mount false FR_OK ∈ sys_capturing.trace
    ∧ (∀ c r, Effect.f_mount c r ∈ sys_capturing.trace → c = false) :=
  ⟨by decide,
   (capture_requires_mounted _ sys_capturing reachable_sys_capturing).1 (by decide),
   by decide,
   (capture_requires_mounted _ sys_capturing reachable_sys_capturing).2.1⟩

/-- C2, the code at two consecutive sessions: `generate_filename` runs once, in
`system_init`, so every reachable state carries the record-file name
`data_001.csv` and the counter value 2; the session started at 4000 ms and the
session started at 13000 ms, after the first was stopped, both create
`data_001.csv` (and `metadata_data_001.csv`). -/
theorem sessions_reuse_file_name :
    (∀ files s, Reachable files s → s.csv_filename = "data_001.csv" ∧ s.file_counter = 2)
    ∧ sys_capturing.capture_active = true
    ∧ sys_stopped.capture_active = false
    ∧ sys_capturing_again.capture_active = true
    ∧ created_files sys_capturing.trace = ["data_001.csv", "metadata_data_001.csv"]
    ∧ created_files sys_capturing_again.trace
        = ["data_001.csv", "metadata_data_001.csv", "data_001.csv", "metadata_data_001.csv"] :=
  ⟨reachable_name, by decide, by decide, by decide, by decide, by decide⟩

/-! ## Whole iterations -/

theorem process_single_sample_files (inp : Inputs) (s : Sys)
    (hok : inp.sample_open = FR_OK ∧ inp.sample_write = FR_OK) :
    (process_single_sample inp s).files s.csv_filename
      = some ((s.files s.csv_filename).getD [] ++
          [Line.row (inc32 s.sample_count) inp.accel inp.gyro inp.timestamp]) := by
  have hf := write_sensor_data_files inp.sample_open inp.sample_write inp.timestamp
    (inc32 (mpu6050_read_raw s).sample_count) inp.accel inp.gyro (mpu6050_read_raw s) hok.1 hok.2
  have h1 := (write_sensor_data_fields inp.sample_open inp.sample_write inp.timestamp
    (inc32 (mpu6050_read_raw s).sample_count) inp.accel inp.gyro (mpu6050_read_raw s)).1
  have e1 : (mpu6050_read_raw s).csv_filename = s.csv_filename := rfl
  have e2 : (mpu6050_read_raw s).files = s.files := rfl
  have e3 : (mpu6050_read_raw s).sample_count = s.sample_count := rfl
  rw [e1, e2, e3] at hf
  rw [e3] at h1
  have hd : decide (inp.sample_open = FR_OK ∧ inp.sample_write = FR_OK) = true := by
    simp [hok]
  rw [hd] at h1
  unfold process_single_sample
  simp only [e3, h1, if_true]
  split
  · simpa [emit] using hf
  · simpa using hf

theorem main_loop_tick (inp : Inputs) (s : Sys) (hcap : s.capture_active = true)
    (hdue : 50 ≤ sub32 inp.current_time s.last_sample_time)
    (ha : s.button_a_pressed = false) (hb : s.button_b_pressed = false) :
    main_loop_iteration inp s
      = sleep_ms 10 { process_single_sample inp s with last_sample_time := inp.current_time } := by
  obtain ⟨-, -, -, -, p5, p6, -⟩ := process_single_sample_fields inp s
  have hS := sampling_block_fired inp s ⟨hcap, hdue⟩
  have hA : button_a_block inp (sampling_block inp s) = sampling_block inp s :=
    button_a_block_idle inp _ (by rw [hS]; simpa [p5] using ha)
  have hB : button_b_block inp (sampling_block inp s) = (sampling_block inp s, false) :=
    button_b_block_idle inp _ (by rw [hS]; simpa [p6] using hb)
  unfold main_loop_iteration
  simp only [hA, hB, Bool.false_eq_true, if_false]
  rw [hS]

theorem main_loop_idle (inp : Inputs) (s : Sys)
    (hno : ¬ (s.capture_active = true ∧ 50 ≤ sub32 inp.current_time s.last_sample_time))
    (ha : s.button_a_pressed = false) (hb : s.button_b_pressed = false) :
    main_loop_iteration inp s = sleep_ms 10 s := by
  have hS := sampling_block_idle inp s hno
  have hA : button_a_block inp (sampling_block inp s) = s := by
    rw [hS]; exact button_a_block_idle inp s ha
  have hB : button_b_block inp s = (s, false) := button_b_block_idle inp s hb
  unfold main_loop_iteration
  simp only [hA, hB, Bool.false_eq_true, if_false]

theorem run_loop_idle_error (later : List Inputs) :
    ∀ s : Sys, s.current_state = STATE_ERROR → s.capture_active = false →
      s.button_a_pressed = false → s.button_b_pressed = false →
      (run_loop later s).current_state = STATE_ERROR := by
  induction later with
  | nil => intro s h _ _ _; exact h
  | cons i is ih =>
    intro s h hc ha hb
    have e := main_loop_idle i s (by simp [hc]) ha hb
    simp only [run_loop, e]
    exact ih _ (by simpa [sleep_ms, emit] using h) (by simpa [sleep_ms, emit] using hc)
      (by simpa [sleep_ms, emit] using ha) (by simpa [sleep_ms, emit] using hb)

/-- C5, the code at a failing sample write: during a capture, with no button
pending, an iteration whose scheduler tick is due and whose record write fails
ends with `STATE_ERROR` and `capture_active` false, and the state stays
`STATE_ERROR` through every later iteration until a button interrupt arrives. -/
theorem write_failure_rests_in_error (inp : Inputs) (s : Sys)
    (hcap : s.capture_active = true)
    (hdue : 50 ≤ sub32 inp.current_time s.last_sample_time)
    (ha : s.button_a_pressed = false) (hb : s.button_b_pressed = false)
    (hfail : ¬ (inp.sample_open = FR_OK ∧ inp.sample_write = FR_OK)) :
    (main_loop_iteration inp s).current_state = STATE_ERROR
    ∧ (main_loop_iteration inp s).capture_active = false
    ∧ (∀ later : List Inputs,
        (run_loop later (main_loop_iteration inp s)).current_state = STATE_ERROR) := by
  obtain ⟨-, p2, p3, -, p5, p6, -⟩ := process_single_sample_fields inp s
  have e := main_loop_tick inp s hcap hdue ha hb
  have h1 : (main_loop_iteration inp s).current_state = STATE_ERROR := by
    rw [e]; simp [sleep_ms, emit, p2, hfail]
  have h2 : (main_loop_iteration inp s).capture_active = false := by
    rw [e]; simp [sleep_ms, emit, p3, hfail]
  have h3 : (main_loop_iteration inp s).button_a_pressed = false := by
    rw [e]; simpa [sleep_ms, emit, p5] using ha
  have h4 : (main_loop_iteration inp s).button_b_pressed = false := by
    rw [e]; simpa [sleep_ms, emit, p6] using hb
  exact ⟨h1, h2, fun later => run_loop_idle_error later _ h1 h2 h3 h4⟩

/-- C5, instance: the capture started at 4000 ms; at 4810 ms the open of the
record file fails. -/
theorem write_failure_rests_in_error_witness :
    (main_loop_iteration { inputs_ok 4810 with sample_open := FR_ERR 1 } sys_capturing).current_state
      = STATE_ERROR
    ∧ (run_loop [inputs_ok 4820, inputs_ok 4830]
        (main_loop_iteration { inputs_ok 4810 with sample_open := FR_ERR 1 }
          sys_capturing)).current_state = STATE_ERROR :=
  ⟨(write_failure_rests_in_error { inputs_ok 4810 with sample_open := FR_ERR 1 } sys_capturing
      (by decide) (by decide) (by decide) (by decide) (by decide)).1,
   (write_failure_rests_in_error { inputs_ok 4810 with sample_open := FR_ERR 1 } sys_capturing
      (by decide) (by decide) (by decide) (by decide) (by decide)).2.2 _⟩

/-! ## A capture session -/

theorem run_loop_append (l : List Inputs) (x : Inputs) :
    ∀ s : Sys, run_loop (l ++ [x]) s = main_loop_iteration x (run_loop l s) := by
  induction l with
  | nil => intro s; rfl
  | cons i is ih => intro s; exact ih (main_loop_iteration i s)

theorem start_iteration (start : Inputs) (s : Sys)
    (hsd : s.sd_mounted = true) (hcap : s.capture_active = false)
    (ha : s.button_a_pressed = true) (hb : s.button_b_pressed = false)
    (ho : start.csv_open = FR_OK) (hw : start.csv_write = FR_OK) :
    (main_loop_iteration start s).current_state = STATE_CAPTURING
    ∧ (main_loop_iteration start s).capture_active = true
    ∧ (main_loop_iteration start s).sd_mounted = true
    ∧ (main_loop_iteration start s).button_a_pressed = false
    ∧ (main_loop_iteration start s).button_b_pressed = false
    ∧ (main_loop_iteration start s).sample_count = 0
    ∧ (main_loop_iteration start s).csv_filename = s.csv_filename
    ∧ (main_loop_iteration start s).last_sample_time = start.current_time
    ∧ (main_loop_iteration start s).files s.csv_filename = some [Line.header] := by
  obtain ⟨c1, c2, c3, c4, c5, c6, c7, c8, -, -, c11, -⟩ :=
    start_capture_fields start { s with button_a_pressed := false }
  have hrec := create_csv_file_record start
    { s with button_a_pressed := false, sample_count := 0 } ho hw
  have hS : sampling_block start s = s := sampling_block_idle start s (by simp [hcap])
  have hA : button_a_block start (sampling_block start s)
      = start_capture start { s with button_a_pressed := false } := by
    rw [hS]; exact button_a_block_start start s ha hcap hsd
  have hB : button_b_block start (start_capture start { s with button_a_pressed := false })
      = (start_capture start { s with button_a_pressed := false }, false) :=
    button_b_block_idle start _ (by rw [c7]; exact hb)
  have hM : main_loop_iteration start s
      = sleep_ms 10 (start_capture start { s with button_a_pressed := false }) := by
    unfold main_loop_iteration
    simp only [hA, hB, Bool.false_eq_true, if_false]
  have hok : start.csv_open = FR_OK ∧ start.csv_write = FR_OK := ⟨ho, hw⟩
  obtain ⟨z1, z2, z3, z4, z5, z6, z7, -, -, z10, z11, -⟩ :=
    sleep_ms_fields 10 (start_capture start { s with button_a_pressed := false })
  rw [hM, z1, z2, z3, z4, z5, z6, z7, z10, z11, c1, c2, c3, c4, c5, c6, c7, c8, c11]
  simp only [hok, and_self, decide_True, Bool.or_true, if_true, true_and]
  exact ⟨hsd, hb, hrec⟩

theorem session_rows32_succ (tick : Nat → Inputs) (n : Nat) :
    session_rows32 tick (n + 1) = session_rows32 tick n ++
      [Line.row ((n + 1) % 4294967296) (tick n).accel (tick n).gyro (tick n).timestamp] := by
  simp [session_rows32, List.range_succ]

theorem session_ticks (start : Inputs) (tick : Nat → Inputs) (s : Sys)
    (hsd : s.sd_mounted = true) (hcap : s.capture_active = false)
    (ha : s.button_a_pressed = true) (hb : s.button_b_pressed = false)
    (ho : start.csv_open = FR_OK) (hw : start.csv_write = FR_OK) :
    ∀ n : Nat,
      (∀ k, k < n →
        (tick k).current_time = (start.current_time + 50 * (k + 1)) % 4294967296
        ∧ (tick k).sample_open = FR_OK ∧ (tick k).sample_write = FR_OK) →
      (run_loop ((List.range n).map tick) (main_loop_iteration start s)).current_state
          = STATE_CAPTURING
      ∧ (run_loop ((List.range n).map tick) (main_loop_iteration start s)).capture_active = true
      ∧ (run_loop ((List.range n).map tick) (main_loop_iteration start s)).button_a_pressed = false
      ∧ (run_loop ((List.range n).map tick) (main_loop_iteration start s)).button_b_pressed = false
      ∧ (run_loop ((List.range n).map tick) (main_loop_iteration start s)).sample_count
          = n % 4294967296
      ∧ (run_loop ((List.range n).map tick) (main_loop_iteration start s)).csv_filename
          = s.csv_filename
      ∧ (run_loop ((List.range n).map tick) (main_loop_iteration start s)).last_sample_time
            % 4294967296 = (start.current_time + 50 * n) % 4294967296
      ∧ (run_loop ((List.range n).map tick) (main_loop_iteration start s)).files s.csv_filename
          = some (Line.header :: session_rows32 tick n) := by
  intro n
  induction n with
  | zero =>
    intro _
    obtain ⟨i1, i2, -, i4, i5, i6, i7, i8, i9⟩ := start_iteration start s hsd hcap ha hb ho hw
    simp only [List.range_zero, List.map_nil, run_loop]
    refine ⟨i1, i2, i4, i5, by rw [i6], i7, by rw [i8]; simp, ?_⟩
    rw [i9]
    rfl
  | succ n ih =>
    intro htick
    obtain ⟨h1, h2, h3, h4, h5, h6, h7, h8⟩ := ih (fun k hk => htick k (Nat.lt_succ_of_lt hk))
    obtain ⟨t1, t2, t3⟩ := htick n (Nat.lt_succ_self n)
    have hdue : 50 ≤ sub32 (tick n).current_time
        (run_loop ((List.range n).map tick) (main_loop_iteration start s)).last_sample_time := by
      unfold sub32
      rw [h7, t1]
      omega
    have e := main_loop_tick (tick n) _ h2 hdue h3 h4
    obtain ⟨p1, p2, p3, -, p5, p6, p7, -⟩ := process_single_sample_fields (tick n)
      (run_loop ((List.range n).map tick) (main_loop_iteration start s))
    have pf := process_single_sample_files (tick n)
      (run_loop ((List.range n).map tick) (main_loop_iteration start s)) ⟨t2, t3⟩
    rw [h6] at pf
    have hok : (tick n).sample_open = FR_OK ∧ (tick n).sample_write = FR_OK := ⟨t2, t3⟩
    rw [List.range_succ, List.map_append, List.map_singleton, run_loop_append, e]
    simp only [sleep_ms, emit]
    refine ⟨?_, ?_, ?_, ?_, ?_, ?_, ?_, ?_⟩
    · rw [p2]; simp only [hok, and_self, if_true]; exact h1
    · rw [p3, h2]; simp [hok]
    · rw [p5]; exact h3
    · rw [p6]; exact h4
    · rw [p1, h5]; simp only [hok, and_self, if_true, inc32]; omega
    · rw [p7]; exact h6
    · rw [t1]; omega
    · rw [pf, h8, h5, session_rows32_succ]
      simp [inc32]

theorem session_rows32_eq (tick : Nat → Inputs) (n : Nat) (hn : n < 4294967296) :
    session_rows32 tick n = session_rows tick n := by
  unfold session_rows32 session_rows
  apply List.map_congr_left
  intro k hk
  have hk' : k < n := List.mem_range.mp hk
  have : (k + 1) % 4294967296 = k + 1 := Nat.mod_eq_of_lt (by omega)
  rw [this]

/-- C7, as amended: for every `n` below 2^32, from a state with the medium
mounted, no capture active and a Start request pending (button B not pending),
the Start iteration followed by `n` scheduler ticks 50 ms apart, the record
file being created and every sample write succeeding, ends with
`STATE_CAPTURING`, sample counter `n`, and a record file made of the header
row followed by exactly `n` rows with the indices 1, 2, ..., n in order. -/
theorem capture_session_records (n : Nat) (start : Inputs) (tick : Nat → Inputs) (s : Sys)
    (hn : n < 4294967296)
    (hsd : s.sd_mounted = true) (hcap : s.capture_active = false)
    (ha : s.button_a_pressed = true) (hb : s.button_b_pressed = false)
    (ho : start.csv_open = FR_OK) (hw : start.csv_write = FR_OK)
    (htick : ∀ k, k < n →
      (tick k).current_time = (start.current_time + 50 * (k + 1)) % 4294967296
      ∧ (tick k).sample_open = FR_OK ∧ (tick k).sample_write = FR_OK) :
    (run_loop ((List.range n).map tick) (main_loop_iteration start s)).current_state
        = STATE_CAPTURING
    ∧ (run_loop ((List.range n).map tick) (main_loop_iteration start s)).sample_count = n
    ∧ (run_loop ((List.range n).map tick) (main_loop_iteration start s)).files
          (run_loop ((List.range n).map tick) (main_loop_iteration start s)).csv_filename
        = some (Line.header :: session_rows tick n)
    ∧ (session_rows tick n).length = n := by
  obtain ⟨h1, -, -, -, h5, h6, -, h8⟩ := session_ticks start tick s hsd hcap ha hb ho hw n htick
  refine ⟨h1, ?_, ?_, by simp [session_rows]⟩
  · rw [h5]; exact Nat.mod_eq_of_lt hn
  · rw [h6, h8, session_rows32_eq tick n hn]

/-- C7, instance with `n = 10`: Start pressed at 4000 ms on the mounted medium,
then ten ticks 50 ms apart. -/
theorem capture_session_records_witness :
    sys_start_pending.current_state = STATE_READY
    ∧ (run_loop ((List.range 10).map tick_ok)
        (main_loop_iteration (inputs_ok 4010) sys_start_pending)).current_state = STATE_CAPTURING
    ∧ (run_loop ((List.range 10).map tick_ok)
        (main_loop_iteration (inputs_ok 4010) sys_start_pending)).sample_count = 10
    ∧ (run_loop ((List.range 10).map tick_ok)
        (main_loop_iteration (inputs_ok 4010) sys_start_pending)).files
          (run_loop ((List.range 10).map tick_ok)
            (main_loop_iteration (inputs_ok 4010) sys_start_pending)).csv_filename
        = some (Line.header :: session_rows tick_ok 10) :=
  ⟨by decide,
   (capture_session_records 10 (inputs_ok 4010) tick_ok sys_start_pending (by decide)
      (by decide) (by decide) (by decide) (by decide) rfl rfl
      (fun _ _ => ⟨rfl, rfl, rfl⟩)).1,
   (capture_session_records 10 (inputs_ok 4010) tick_ok sys_start_pending (by decide)
      (by decide) (by decide) (by decide) (by decide) rfl rfl
      (fun _ _ => ⟨rfl, rfl, rfl⟩)).2.1,
   (capture_session_records 10 (inputs_ok 4010) tick_ok sys_start_pending (by decide)
      (by decide) (by decide) (by decide) (by decide) rfl rfl
      (fun _ _ => ⟨rfl, rfl, rfl⟩)).2.2.1⟩

/-- C7, counterexample with `n = 4294967296`: after that many successful ticks
the `uint32_t` sample counter holds 0, not `n`. -/
theorem capture_session_counter_wraps :
    sys_start_pending.current_state = STATE_READY
    ∧ sys_start_pending.sd_mounted = true
    ∧ (run_loop ((List.range 4294967296).map tick_ok)
        (main_loop_iteration (inputs_ok 4010) sys_start_pending)).sample_count = 0
    ∧ (run_loop ((List.range 4294967296).map tick_ok)
        (main_loop_iteration (inputs_ok 4010) sys_start_pending)).sample_count ≠ 4294967296 := by
  have h := (session_ticks (inputs_ok 4010) tick_ok sys_start_pending (by decide) (by decide)
    (by decide) (by decide) rfl rfl 4294967296 (fun _ _ => ⟨rfl, rfl, rfl⟩)).2.2.2.2.1
  refine ⟨by decide, by decide, ?_, ?_⟩
  · rw [h]
  · rw [h]; decide

/-! ## Work done by one iteration -/

theorem work_eval :
    (∀ r g b, is_sensor_read (Effect.led r g b) = false
      ∧ is_record_write (Effect.led r g b) = false ∧ is_mount_op (Effect.led r g b) = false)
    ∧ (∀ f d, is_sensor_read (Effect.beep f d) = false
      ∧ is_record_write (Effect.beep f d) = false ∧ is_mount_op (Effect.beep f d) = false)
    ∧ (∀ m, is_sensor_read (Effect.sleep m) = false
      ∧ is_record_write (Effect.sleep m) = false ∧ is_mount_op (Effect.sleep m) = false)
    ∧ (∀ a b c d, is_sensor_read (Effect.display a b c d) = false
      ∧ is_record_write (Effect.display a b c d) = false
      ∧ is_mount_op (Effect.display a b c d) = false)
    ∧ (∀ c f, is_sensor_read (Effect.progress c f) = false
      ∧ is_record_write (Effect.progress c f) = false ∧ is_mount_op (Effect.progress c f) = false)
    ∧ (is_sensor_read Effect.sensor_read = true
      ∧ is_record_write Effect.sensor_read = false ∧ is_mount_op Effect.sensor_read = false)
    ∧ (∀ n r, is_sensor_read (Effect.f_open_create n r) = false
      ∧ is_record_write (Effect.f_open_create n r) = false
      ∧ is_mount_op (Effect.f_open_create n r) = false)
    ∧ (∀ n r, is_sensor_read (Effect.f_open_append n r) = false
      ∧ is_record_write (Effect.f_open_append n r) = true
      ∧ is_mount_op (Effect.f_open_append n r) = false)
    ∧ (∀ n r, is_sensor_read (Effect.f_write n r) = false
      ∧ is_record_write (Effect.f_write n r) = false ∧ is_mount_op (Effect.f_write n r) = false)
    ∧ (∀ n, is_sensor_read (Effect.f_close n) = false
      ∧ is_record_write (Effect.f_close n) = false ∧ is_mount_op (Effect.f_close n) = false)
    ∧ (∀ c r, is_sensor_read (Effect.f_mount c r) = false
      ∧ is_record_write (Effect.f_mount c r) = false ∧ is_mount_op (Effect.f_mount c r) = true)
    ∧ (∀ c r, is_sensor_read (Effect.f_unmount c r) = false
      ∧ is_record_write (Effect.f_unmount c r) = false ∧ is_mount_op (Effect.f_unmount c r) = true) :=
  ⟨fun _ _ _ => ⟨rfl, rfl, rfl⟩, fun _ _ => ⟨rfl, rfl, rfl⟩, fun _ => ⟨rfl, rfl, rfl⟩,
   fun _ _ _ _ => ⟨rfl, rfl, rfl⟩, fun _ _ => ⟨rfl, rfl, rfl⟩, ⟨rfl, rfl, rfl⟩,
   fun _ _ => ⟨rfl, rfl, rfl⟩, fun _ _ => ⟨rfl, rfl, rfl⟩, fun _ _ => ⟨rfl, rfl, rfl⟩,
   fun _ => ⟨rfl, rfl, rfl⟩, fun _ _ => ⟨rfl, rfl, rfl⟩, fun _ _ => ⟨rfl, rfl, rfl⟩⟩

theorem work_write_sensor_data (o w : FRESULT) (ts n : Nat) (a g : Vec3) (s : Sys) :
    sensor_reads (write_sensor_data o w ts n a g s).2 = sensor_reads s
    ∧ record_writes (write_sensor_data o w ts n a g s).2 = record_writes s + 1
    ∧ mount_calls (write_sensor_data o w ts n a g s).2 = mount_calls s := by
  by_cases ho : o = FR_OK <;> by_cases hw : w = FR_OK <;> by_cases hn : n % 50 = 0 <;>
    simp [write_sensor_data, led_red, led_blue, sleep_ms, set_rgb_color, emit, ho, hw, hn,
      sensor_reads, record_writes, mount_calls, List.countP_append, List.countP_cons, work_eval]

theorem work_process_single_sample (inp : Inputs) (s : Sys) :
    sensor_reads (process_single_sample inp s) = sensor_reads s + 1
    ∧ record_writes (process_single_sample inp s) = record_writes s + 1
    ∧ mount_calls (process_single_sample inp s) = mount_calls s := by
  obtain ⟨w1, w2, w3⟩ := work_write_sensor_data inp.sample_open inp.sample_write inp.timestamp
    (inc32 (mpu6050_read_raw s).sample_count) inp.accel inp.gyro (mpu6050_read_raw s)
  have r1 : sensor_reads (mpu6050_read_raw s) = sensor_reads s + 1 := by
    simp [mpu6050_read_raw, emit, sensor_reads, List.countP_append, List.countP_cons, work_eval]
  have r2 : record_writes (mpu6050_read_raw s) = record_writes s := by
    simp [mpu6050_read_raw, emit, record_writes, List.countP_append, List.countP_cons, work_eval]
  have r3 : mount_calls (mpu6050_read_raw s) = mount_calls s := by
    simp [mpu6050_read_raw, emit, mount_calls, List.countP_append, List.countP_cons, work_eval]
  rw [r1] at w1
  rw [r2] at w2
  rw [r3] at w3
  unfold process_single_sample
  simp only []
  simp only [sensor_reads, record_writes, mount_calls] at w1 w2 w3 ⊢
  split
  · split
    · simp only [emit]
      simp [w1, w2, w3, List.countP_append, List.countP_cons, work_eval]
    · exact ⟨w1, w2, w3⟩
  · simp only [update_display, led_purple, set_rgb_color, emit]
    simp [w1, w2, w3, List.countP_append, List.countP_cons, work_eval]

theorem work_sampling_block (inp : Inputs) (s : Sys) :
    sensor_reads (sampling_block inp s) ≤ sensor_reads s + 1
    ∧ record_writes (sampling_block inp s) ≤ record_writes s + 1
    ∧ mount_calls (sampling_block inp s) = mount_calls s
    ∧ sensor_reads s ≤ sensor_reads (sampling_block inp s)
    ∧ record_writes s ≤ record_writes (sampling_block inp s) := by
  by_cases h : s.capture_active = true ∧ 50 ≤ sub32 inp.current_time s.last_sample_time
  · obtain ⟨p1, p2, p3⟩ := work_process_single_sample inp s
    rw [sampling_block_fired inp s h]
    simp only [sensor_reads, record_writes, mount_calls] at p1 p2 p3 ⊢
    omega
  · rw [sampling_block_idle inp s h]
    simp

theorem work_create_metadata_file (o w : FRESULT) (s : Sys) :
    sensor_reads (create_metadata_file o w s).2 = sensor_reads s
    ∧ record_writes (create_metadata_file o w s).2 = record_writes s
    ∧ mount_calls (create_metadata_file o w s).2 = mount_calls s := by
  by_cases ho : o = FR_OK <;> by_cases hw : w = FR_OK <;>
    simp [create_metadata_file, emit, ho, hw, sensor_reads, record_writes, mount_calls,
      List.countP_append, List.countP_cons, work_eval]

theorem work_create_csv_file (inp : Inputs) (s : Sys) :
    sensor_reads (create_csv_file inp s).2 = sensor_reads s
    ∧ record_writes (create_csv_file inp s).2 = record_writes s
    ∧ mount_calls (create_csv_file inp s).2 = mount_calls s := by
  by_cases ho : inp.csv_open = FR_OK
  · by_cases hw : inp.csv_write = FR_OK
    · simp only [create_csv_file, ho, hw, ne_eq, not_true_eq_false, if_false, if_true,
        work_create_metadata_file]
      simp [emit, sensor_reads, record_writes, mount_calls, List.countP_append,
        List.countP_cons, work_eval]
    · simp only [create_csv_file, ho, hw, ne_eq, not_true_eq_false, if_false,
        work_create_metadata_file]
      simp [emit, sensor_reads, record_writes, mount_calls, List.countP_append,
        List.countP_cons, work_eval]
  · simp [create_csv_file, ho, emit, sensor_reads, record_writes, mount_calls,
      List.countP_append, List.countP_cons, work_eval]

theorem work_start_capture (inp : Inputs) (s : Sys) :
    sensor_reads (start_capture inp s) = sensor_reads s
    ∧ record_writes (start_capture inp s) = record_writes s
    ∧ mount_calls (start_capture inp s) = mount_calls s := by
  obtain ⟨c1, c2, c3⟩ := work_create_csv_file inp { s with sample_count := 0 }
  simp only [sensor_reads, record_writes, mount_calls] at c1 c2 c3 ⊢
  unfold start_capture
  simp only []
  split
  · simp only [update_display, led_red, buzzer_single_beep, buzzer_beep, sleep_ms,
      set_rgb_color, emit]
    simp [c1, c2, c3, List.countP_append, List.countP_cons, work_eval]
  · simp only [update_display, led_purple, led_green, buzzer_beep, sleep_ms, set_rgb_color, emit]
    simp [c1, c2, c3, List.countP_append, List.countP_cons, work_eval]

theorem work_button_a_block (inp : Inputs) (s : Sys) :
    sensor_reads (button_a_block inp s) = sensor_reads s
    ∧ record_writes (button_a_block inp s) = record_writes s
    ∧ mount_calls (button_a_block inp s) = mount_calls s := by
  by_cases ha : s.button_a_pressed = true
  · by_cases hcap : s.capture_active = true
    · simp [button_a_block, ha, hcap, update_display, led_green, buzzer_double_beep, buzzer_beep,
        sleep_ms, set_rgb_color, emit, sensor_reads, record_writes, mount_calls,
        List.countP_append, List.countP_cons, work_eval]
    · have hcap' : s.capture_active = false := by simpa using hcap
      by_cases hsd : s.sd_mounted = true
      · rw [button_a_block_start inp s ha hcap' hsd]
        exact work_start_capture inp { s with button_a_pressed := false }
      · have hsd' : s.sd_mounted = false := by simpa using hsd
        simp [button_a_block, ha, hcap', hsd', update_display, led_green, led_purple, buzzer_beep,
          sleep_ms, set_rgb_color, emit, sensor_reads, record_writes, mount_calls,
          List.countP_append, List.countP_cons, work_eval]
  · have ha' : s.button_a_pressed = false := by simpa using ha
    rw [button_a_block_idle inp s ha']
    exact ⟨rfl, rfl, rfl⟩

theorem work_mount_request (inp : Inputs) (s : Sys) :
    sensor_reads (mount_request inp s) = sensor_reads s
    ∧ record_writes (mount_request inp s) = record_writes s
    ∧ mount_calls (mount_request inp s) ≤ mount_calls s + 1 := by
  have hm : sensor_reads (mount_sd_card inp.fs_found inp.mount_res s).2 = sensor_reads s
      ∧ record_writes (mount_sd_card inp.fs_found inp.mount_res s).2 = record_writes s
      ∧ mount_calls (mount_sd_card inp.fs_found inp.mount_res s).2 ≤ mount_calls s + 1 := by
    cases hf : inp.fs_found <;> by_cases hr : inp.mount_res = FR_OK <;>
      simp [mount_sd_card, update_display, led_blue, led_purple, set_rgb_color, emit, hr,
        sensor_reads, record_writes, mount_calls, List.countP_append, List.countP_cons, work_eval]
  obtain ⟨m1, m2, m3⟩ := hm
  simp only [sensor_reads, record_writes, mount_calls] at m1 m2 m3 ⊢
  unfold mount_request
  simp only []
  split
  · simp only [update_display, led_green, buzzer_single_beep, buzzer_beep, sleep_ms,
      set_rgb_color, emit]
    simp [m1, m2, List.countP_append, List.countP_cons, work_eval]
    exact m3
  · simp only [update_display, led_green, led_purple, buzzer_beep, sleep_ms, set_rgb_color, emit]
    simp [m1, m2, List.countP_append, List.countP_cons, work_eval]
    exact m3

theorem work_unmount_request (inp : Inputs) (s : Sys) :
    sensor_reads (unmount_request inp s) = sensor_reads s
    ∧ record_writes (unmount_request inp s) = record_writes s
    ∧ mount_calls (unmount_request inp s) ≤ mount_calls s + 1 := by
  have hm : sensor_reads (unmount_sd_card inp.unmount_res s).2 = sensor_reads s
      ∧ record_writes (unmount_sd_card inp.unmount_res s).2 = record_writes s
      ∧ mount_calls (unmount_sd_card inp.unmount_res s).2 ≤ mount_calls s + 1 := by
    by_cases hr : inp.unmount_res = FR_OK <;>
      simp [unmount_sd_card, update_display, led_blue, set_rgb_color, emit, hr,
        sensor_reads, record_writes, mount_calls, List.countP_append, List.countP_cons, work_eval]
  obtain ⟨m1, m2, m3⟩ := hm
  simp only [sensor_reads, record_writes, mount_calls] at m1 m2 m3 ⊢
  unfold unmount_request
  simp only []
  split
  · simp only [update_display, led_green, buzzer_double_beep, buzzer_beep, sleep_ms,
      set_rgb_color, emit]
    simp [m1, m2, List.countP_append, List.countP_cons, work_eval]
    exact m3
  · simp only [update_display, led_green, led_purple, buzzer_beep, sleep_ms, set_rgb_color, emit]
    simp [m1, m2, List.countP_append, List.countP_cons, work_eval]
    exact m3

theorem work_button_b_block (inp : Inputs) (s : Sys) :
    sensor_reads (button_b_block inp s).1 = sensor_reads s
    ∧ record_writes (button_b_block inp s).1 = record_writes s
    ∧ mount_calls (button_b_block inp s).1 ≤ mount_calls s + 1 := by
  by_cases hb : s.button_b_pressed = true
  · by_cases hcap : s.capture_active = true
    · simp [button_b_block, hb, hcap, update_display, buzzer_beep, sleep_ms, emit, sensor_reads,
        record_writes, mount_calls, List.countP_append, List.countP_cons, work_eval]
    · have hcap' : s.capture_active = false := by simpa using hcap
      by_cases hsd : s.sd_mounted = true
      · have hB : button_b_block inp s
            = (unmount_request inp { s with button_b_pressed := false }, false) := by
          simp [button_b_block, hb, hcap', hsd]
        rw [hB]
        exact work_unmount_request inp { s with button_b_pressed := false }
      · have hsd' : s.sd_mounted = false := by simpa using hsd
        have hB : button_b_block inp s
            = (mount_request inp { s with button_b_pressed := false }, false) := by
          simp [button_b_block, hb, hcap', hsd']
        rw [hB]
        exact work_mount_request inp { s with button_b_pressed := false }
  · have hb' : s.button_b_pressed = false := by simpa using hb
    rw [button_b_block_idle inp s hb']
    exact ⟨rfl, rfl, Nat.le_succ _⟩

theorem work_sleep_ms (ms : Nat) (s : Sys) :
    sensor_reads (sleep_ms ms s) = sensor_reads s
    ∧ record_writes (sleep_ms ms s) = record_writes s
    ∧ mount_calls (sleep_ms ms s) = mount_calls s := by
  simp [sleep_ms, emit, sensor_reads, record_writes, mount_calls, List.countP_append,
    List.countP_cons, work_eval]

theorem work_main_loop_iteration (inp : Inputs) (s : Sys) :
    sensor_reads (main_loop_iteration inp s) ≤ sensor_reads s + 1
    ∧ record_writes (main_loop_iteration inp s) ≤ record_writes s + 1
    ∧ mount_calls (main_loop_iteration inp s) ≤ mount_calls s + 1 := by
  obtain ⟨s1, s2, s3, -, -⟩ := work_sampling_block inp s
  obtain ⟨a1, a2, a3⟩ := work_button_a_block inp (sampling_block inp s)
  obtain ⟨b1, b2, b3⟩ := work_button_b_block inp (button_a_block inp (sampling_block inp s))
  obtain ⟨z1, z2, z3⟩ :=
    work_sleep_ms 10 (button_b_block inp (button_a_block inp (sampling_block inp s))).1
  rcases main_loop_iteration_eq inp s with e | e <;> rw [e]
  · exact ⟨by omega, by omega, by omega⟩
  · exact ⟨by omega, by omega, by omega⟩

/-! ## Button requests processed by one iteration -/

theorem pause_eval :
    (∀ r g b, is_button_pause (Effect.led r g b) = false)
    ∧ (∀ f d, is_button_pause (Effect.beep f d) = false)
    ∧ (∀ m, is_button_pause (Effect.sleep m) = decide (500 ≤ m))
    ∧ (∀ a b c d, is_button_pause (Effect.display a b c d) = false)
    ∧ (∀ c f, is_button_pause (Effect.progress c f) = false)
    ∧ is_button_pause Effect.sensor_read = false
    ∧ (∀ n r, is_button_pause (Effect.f_open_create n r) = false)
    ∧ (∀ n r, is_button_pause (Effect.f_open_append n r) = false)
    ∧ (∀ n r, is_button_pause (Effect.f_write n r) = false)
    ∧ (∀ n, is_button_pause (Effect.f_close n) = false)
    ∧ (∀ c r, is_button_pause (Effect.f_mount c r) = false)
    ∧ (∀ c r, is_button_pause (Effect.f_unmount c r) = false) :=
  ⟨fun _ _ _ => rfl, fun _ _ => rfl, fun _ => rfl, fun _ _ _ _ => rfl, fun _ _ => rfl, rfl,
   fun _ _ => rfl, fun _ _ => rfl, fun _ _ => rfl, fun _ => rfl, fun _ _ => rfl, fun _ _ => rfl⟩

theorem pauses_write_sensor_data (o w : FRESULT) (ts n : Nat) (a g : Vec3) (s : Sys) :
    button_pauses (write_sensor_data o w ts n a g s).2 = button_pauses s := by
  by_cases ho : o = FR_OK <;> by_cases hw : w = FR_OK <;> by_cases hn : n % 50 = 0 <;>
    simp [write_sensor_data, led_red, led_blue, sleep_ms, set_rgb_color, emit, ho, hw, hn,
      button_pauses, List.countP_append, List.countP_cons, pause_eval]

theorem pauses_process_single_sample (inp : Inputs) (s : Sys) :
    button_pauses (process_single_sample inp s) = button_pauses s := by
  have w1 := pauses_write_sensor_data inp.sample_open inp.sample_write inp.timestamp
    (inc32 (mpu6050_read_raw s).sample_count) inp.accel inp.gyro (mpu6050_read_raw s)
  have r1 : button_pauses (mpu6050_read_raw s) = button_pauses s := by
    simp [mpu6050_read_raw, emit, button_pauses, List.countP_append, List.countP_cons, pause_eval]
  rw [r1] at w1
  unfold process_single_sample
  simp only []
  simp only [button_pauses] at w1 ⊢
  split
  · split
    · simp only [emit]
      simp [w1, List.countP_append, List.countP_cons, pause_eval]
    · exact w1
  · simp only [update_display, led_purple, set_rgb_color, emit]
    simp [w1, List.countP_append, List.countP_cons, pause_eval]

theorem sampling_block_capture (inp : Inputs) (s : Sys) :
    (sampling_block inp s).capture_active
        = (s.capture_active && (decide (inp.sample_open = FR_OK ∧ inp.sample_write = FR_OK)
            || !decide (50 ≤ sub32 inp.current_time s.last_sample_time)))
    ∧ button_pauses (sampling_block inp s) = button_pauses s := by
  by_cases h : s.capture_active = true ∧ 50 ≤ sub32 inp.current_time s.last_sample_time
  · obtain ⟨-, -, p3, -⟩ := process_single_sample_fields inp s
    have hp := pauses_process_single_sample inp s
    rw [sampling_block_fired inp s h]
    simp only [button_pauses] at hp ⊢
    refine ⟨?_, hp⟩
    simp only [p3, h.1, Bool.true_and, decide_eq_true h.2, Bool.not_true, Bool.or_false]
  · rw [sampling_block_idle inp s h]
    refine ⟨?_, rfl⟩
    cases hc : s.capture_active
    · simp
    · have hd : ¬ 50 ≤ sub32 inp.current_time s.last_sample_time := fun hd => h ⟨hc, hd⟩
      simp [hd]

theorem pauses_create_csv_file (inp : Inputs) (s : Sys) :
    button_pauses (create_csv_file inp s).2 = button_pauses s := by
  have hm : ∀ o w (u : Sys), button_pauses (create_metadata_file o w u).2 = button_pauses u := by
    intro o w u
    by_cases ho : o = FR_OK <;> by_cases hw : w = FR_OK <;>
      simp [create_metadata_file, emit, ho, hw, button_pauses, List.countP_append,
        List.countP_cons, pause_eval]
  by_cases ho : inp.csv_open = FR_OK
  · by_cases hw : inp.csv_write = FR_OK
    · simp only [create_csv_file, ho, hw, ne_eq, not_true_eq_false, if_false, if_true, hm]
      simp [emit, button_pauses, List.countP_append, List.countP_cons, pause_eval]
    · simp only [create_csv_file, ho, hw, ne_eq, not_true_eq_false, if_false, hm]
      simp [emit, button_pauses, List.countP_append, List.countP_cons, pause_eval]
  · simp [create_csv_file, ho, emit, button_pauses, List.countP_append, List.countP_cons,
      pause_eval]

theorem pauses_start_capture (inp : Inputs) (s : Sys) :
    button_pauses (start_capture inp s) = button_pauses s + 1 := by
  have c1 := pauses_create_csv_file inp { s with sample_count := 0 }
  simp only [button_pauses] at c1 ⊢
  unfold start_capture
  simp only []
  split
  · simp only [update_display, led_red, buzzer_single_beep, buzzer_beep, sleep_ms,
      set_rgb_color, emit]
    simp [c1, List.countP_append, List.countP_cons, pause_eval]
  · simp only [update_display, led_purple, led_green, buzzer_beep, sleep_ms, set_rgb_color, emit]
    simp [c1, List.countP_append, List.countP_cons, pause_eval]

theorem button_a_block_processed (inp : Inputs) (s : Sys) :
    button_pauses (button_a_block inp s)
        = button_pauses s + (if s.button_a_pressed = true then 1 else 0)
    ∧ (button_a_block inp s).capture_active
        = (if s.button_a_pressed = true then
            (!s.capture_active && s.sd_mounted
              && decide (inp.csv_open = FR_OK ∧ inp.csv_write = FR_OK))
           else s.capture_active)
    ∧ (button_a_block inp s).button_a_pressed = false := by
  by_cases ha : s.button_a_pressed = true
  · by_cases hcap : s.capture_active = true
    · simp [button_a_block, ha, hcap, update_display, led_green, buzzer_double_beep, buzzer_beep,
        sleep_ms, set_rgb_color, emit, button_pauses, List.countP_append, List.countP_cons,
        pause_eval]
    · have hcap' : s.capture_active = false := by simpa using hcap
      by_cases hsd : s.sd_mounted = true
      · obtain ⟨c1, -, -, -, -, c6, -⟩ :=
          start_capture_fields inp { s with button_a_pressed := false }
        have hp := pauses_start_capture inp { s with button_a_pressed := false }
        rw [button_a_block_start inp s ha hcap' hsd]
        simp only [button_pauses] at hp ⊢
        refine ⟨by rw [hp]; simp [ha], ?_, c6⟩
        rw [c1]
        simp [ha, hcap', hsd]
      · have hsd' : s.sd_mounted = false := by simpa using hsd
        simp [button_a_block, ha, hcap', hsd', update_display, led_green, led_purple, buzzer_beep,
          sleep_ms, set_rgb_color, emit, button_pauses, List.countP_append, List.countP_cons,
          pause_eval]
  · have ha' : s.button_a_pressed = false := by simpa using ha
    rw [button_a_block_idle inp s ha']
    simp [ha']

theorem pauses_mount_request (inp : Inputs) (s : Sys) :
    button_pauses (mount_request inp s) = button_pauses s + 1 := by
  have hm : button_pauses (mount_sd_card inp.fs_found inp.mount_res s).2 = button_pauses s := by
    cases hf : inp.fs_found <;> by_cases hr : inp.mount_res = FR_OK <;>
      simp [mount_sd_card, update_display, led_blue, led_purple, set_rgb_color, emit, hr,
        button_pauses, List.countP_append, List.countP_cons, pause_eval]
  simp only [button_pauses] at hm ⊢
  unfold mount_request
  simp only []
  split
  · simp only [update_display, led_green, buzzer_single_beep, buzzer_beep, sleep_ms,
      set_rgb_color, emit]
    simp [hm, List.countP_append, List.countP_cons, pause_eval]
  · simp only [update_display, led_green, led_purple, buzzer_beep, sleep_ms, set_rgb_color, emit]
    simp [hm, List.countP_append, List.countP_cons, pause_eval]

theorem pauses_unmount_request (inp : Inputs) (s : Sys) :
    button_pauses (unmount_request inp s) = button_pauses s + 1 := by
  have hm : button_pauses (unmount_sd_card inp.unmount_res s).2 = button_pauses s := by
    by_cases hr : inp.unmount_res = FR_OK <;>
      simp [unmount_sd_card, update_display, led_blue, set_rgb_color, emit, hr,
        button_pauses, List.countP_append, List.countP_cons, pause_eval]
  simp only [button_pauses] at hm ⊢
  unfold unmount_request
  simp only []
  split
  · simp only [update_display, led_green, buzzer_double_beep, buzzer_beep, sleep_ms,
      set_rgb_color, emit]
    simp [hm, List.countP_append, List.countP_cons, pause_eval]
  · simp only [update_display, led_green, led_purple, buzzer_beep, sleep_ms, set_rgb_color, emit]
    simp [hm, List.countP_append, List.countP_cons, pause_eval]

theorem button_b_block_processed (inp : Inputs) (s : Sys) :
    button_pauses (button_b_block inp s).1
        = button_pauses s + (if s.button_b_pressed = true then 1 else 0)
    ∧ (button_b_block inp s).1.sd_mounted
        = (if s.button_b_pressed = true ∧ s.capture_active = false then
            (if s.sd_mounted = true then !decide (inp.unmount_res = FR_OK)
             else decide (inp.fs_found = true ∧ inp.mount_res = FR_OK))
           else s.sd_mounted)
    ∧ (button_b_block inp s).1.button_b_pressed = false
    ∧ (button_b_block inp s).1.button_a_pressed = s.button_a_pressed := by
  by_cases hb : s.button_b_pressed = true
  · by_cases hcap : s.capture_active = true
    · simp [button_b_block, hb, hcap, update_display, buzzer_beep, sleep_ms, emit, button_pauses,
        List.countP_append, List.countP_cons, pause_eval]
    · have hcap' : s.capture_active = false := by simpa using hcap
      by_cases hsd : s.sd_mounted = true
      · have hB : button_b_block inp s
            = (unmount_request inp { s with button_b_pressed := false }, false) := by
          simp [button_b_block, hb, hcap', hsd]
        obtain ⟨-, -, u3, -, -, -, -, u8, u9, -⟩ :=
          unmount_request_fields inp { s with button_b_pressed := false }
        have hp := pauses_unmount_request inp { s with button_b_pressed := false }
        simp only [button_pauses] at hp ⊢
        rw [hB]
        refine ⟨by rw [hp]; simp [hb], ?_, u9, u8⟩
        rw [u3]
        simp [hb, hcap', hsd]
      · have hsd' : s.sd_mounted = false := by simpa using hsd
        have hB : button_b_block inp s
            = (mount_request inp { s with button_b_pressed := false }, false) := by
          simp [button_b_block, hb, hcap', hsd']
        obtain ⟨-, -, u3, -, -, -, -, u8, u9, -⟩ :=
          mount_request_fields inp { s with button_b_pressed := false }
        have hp := pauses_mount_request inp { s with button_b_pressed := false }
        simp only [button_pauses] at hp ⊢
        rw [hB]
        refine ⟨by rw [hp]; simp [hb], ?_, u9, u8⟩
        rw [u3]
        simp [hb, hcap', hsd']
  · have hb' : s.button_b_pressed = false := by simpa using hb
    rw [button_b_block_idle inp s hb']
    simp [hb']

theorem pauses_sleep_10 (s : Sys) : button_pauses (sleep_ms 10 s) = button_pauses s := by
  simp [sleep_ms, emit, button_pauses, List.countP_append, List.countP_cons, pause_eval]

/-- C11, as amended: whatever the state at the top of a main-loop iteration and
however much time has elapsed, one iteration performs at most one sensor read,
starts at most one record write and issues at most one mount or unmount call.
It processes each pending button request exactly once and no request that is
not pending, button A first and button B after it: the number of button
feedback pauses grows by one for a pending A plus one for a pending B (two
when both flags are set); `capture_active` at the end is what the single Start
or Stop of button A makes of the value left by the sample; `sd_mounted` at the
end is what the single mount or unmount of button B makes of it, and B is
refused when the capture is active after A; both pending flags are clear. -/
theorem iteration_work_bounded (inp : Inputs) (s : Sys) :
    sensor_reads (main_loop_iteration inp s) ≤ sensor_reads s + 1
    ∧ record_writes (main_loop_iteration inp s) ≤ record_writes s + 1
    ∧ mount_calls (main_loop_iteration inp s) ≤ mount_calls s + 1
    ∧ button_pauses (main_loop_iteration inp s)
        = button_pauses s + (if s.button_a_pressed = true then 1 else 0)
          + (if s.button_b_pressed = true then 1 else 0)
    ∧ (main_loop_iteration inp s).capture_active
        = (if s.button_a_pressed = true then
            (!(s.capture_active && (decide (inp.sample_open = FR_OK ∧ inp.sample_write = FR_OK)
                || !decide (50 ≤ sub32 inp.current_time s.last_sample_time)))
              && s.sd_mounted && decide (inp.csv_open = FR_OK ∧ inp.csv_write = FR_OK))
           else
            (s.capture_active && (decide (inp.sample_open = FR_OK ∧ inp.sample_write = FR_OK)
                || !decide (50 ≤ sub32 inp.current_time s.last_sample_time))))
    ∧ (main_loop_iteration inp s).sd_mounted
        = (if s.button_b_pressed = true ∧ (main_loop_iteration inp s).capture_active = false then
            (if s.sd_mounted = true then !decide (inp.unmount_res = FR_OK)
             else decide (inp.fs_found = true ∧ inp.mount_res = FR_OK))
           else s.sd_mounted)
    ∧ (main_loop_iteration inp s).button_a_pressed = false
    ∧ (main_loop_iteration inp s).button_b_pressed = false := by
  obtain ⟨w1, w2, w3⟩ := work_main_loop_iteration inp s
  obtain ⟨s1, s2, s3, -⟩ := sampling_block_fields inp s
  obtain ⟨sc, sp⟩ := sampling_block_capture inp s
  obtain ⟨a1, a2, -⟩ := button_a_block_fields inp (sampling_block inp s)
  obtain ⟨ap, ac, aa⟩ := button_a_block_processed inp (sampling_block inp s)
  obtain ⟨b1, -⟩ := button_b_block_fields inp (button_a_block inp (sampling_block inp s))
  obtain ⟨bp, bs, bb, ba⟩ :=
    button_b_block_processed inp (button_a_block inp (sampling_block inp s))
  obtain ⟨-, z2, z3, z4, z5, -⟩ :=
    sleep_ms_fields 10 (button_b_block inp (button_a_block inp (sampling_block inp s))).1
  have zp := pauses_sleep_10 (button_b_block inp (button_a_block inp (sampling_block inp s))).1
  rw [a2, s3, a1, s1] at bs
  rw [a2, s3, ap, s2, sp] at bp
  rw [s2, sc, s1] at ac
  refine ⟨w1, w2, w3, ?_⟩
  rcases main_loop_iteration_eq inp s with e | e <;> rw [e]
  · exact ⟨bp, by rw [b1]; exact ac, by rw [b1]; exact bs, by rw [ba]; exact aa, bb⟩
  · rw [zp, z2, z3, z4, z5]
    exact ⟨bp, by rw [b1]; exact ac, by rw [b1]; exact bs, by rw [ba]; exact aa, bb⟩

/-- C11, instance: the capturing state with both flags pending, at 11520 ms. -/
theorem iteration_work_bounded_witness :
    sensor_reads (main_loop_iteration (inputs_ok 11520) sys_both_pending)
      ≤ sensor_reads sys_both_pending + 1
    ∧ button_pauses (main_loop_iteration (inputs_ok 11520) sys_both_pending)
      = button_pauses sys_both_pending
          + (if sys_both_pending.button_a_pressed = true then 1 else 0)
          + (if sys_both_pending.button_b_pressed = true then 1 else 0) :=
  ⟨(iteration_work_bounded (inputs_ok 11520) sys_both_pending).1,
   (iteration_work_bounded (inputs_ok 11520) sys_both_pending).2.2.2.1⟩

/-- C11, counterexample: with a capture active on the mounted medium and both
flags pending, one iteration processes the Stop request of button A (the
capture ends) and then the Storage toggle request of button B (the medium is
unmounted): two button-driven transitions, each with its feedback pause. -/
theorem both_buttons_processed_in_one_iteration :
    sys_both_pending.button_a_pressed = true
    ∧ sys_both_pending.button_b_pressed = true
    ∧ sys_both_pending.capture_active = true
    ∧ sys_both_pending.sd_mounted = true
    ∧ (main_loop_iteration (inputs_ok 11520) sys_both_pending).capture_active = false
    ∧ (main_loop_iteration (inputs_ok 11520) sys_both_pending).sd_mounted = false
    ∧ mount_calls (main_loop_iteration (inputs_ok 11520) sys_both_pending)
        = mount_calls sys_both_pending + 1
    ∧ button_pauses (main_loop_iteration (inputs_ok 11520) sys_both_pending)
        = button_pauses sys_both_pending + 2 := by
  refine ⟨by decide, by decide, by decide, by decide, by decide, by decide, by decide, by decide⟩

end Trabalho12
